import Mathlib

/-!
# sc530ai MIPI sensor driver: exposure / gain encoders and power sequencing

Shallow embedding of `drivers/media/platform/sunxi-vin/modules/sensor/sc530ai_mipi.c`.

* C `int` / `unsigned int` values are mathematical integers with explicit 32-bit
  wrap-around where the source can overflow.
* Everything the driver does to the outside world (register bus, GPIO lines, power
  rails, clock, delays, the bus lock) is recorded, in program order, in an action
  trace carried by the state.
* The register-bus helpers, the GPIO / rail / clock helpers and the numeric values of
  the framework's constants are declared in headers that are not part of this source
  file; the bus is an explicit parameter (`Bus`), the constants are an explicit
  parameter (`Header`), and the helper calls are trace actions.
-/

namespace Sc530ai

/-! ## Machine integers -/

/-- Value of a C `int` (32-bit two's complement) after wrap-around of the exact result `x`. -/
def wrap_int (x : Int) : Int := (x + 2147483648) % 4294967296 - 2147483648

/-- Conversion of an integer to `unsigned int` (32 bits). -/
def to_uint (x : Int) : Nat := (x % 4294967296).toNat

/-- Conversion of an `unsigned int` bit pattern to `__s32`. -/
def to_s32 (x : Nat) : Int := wrap_int (x : Int)

/-- The cast `(unsigned char)`. -/
def to_uchar (x : Nat) : Nat := x % 256

/-- Left shift of an `unsigned int` (`x << k`), reduced modulo 2^32. -/
def shl_uint (x k : Nat) : Nat := (x <<< k) % 4294967296

/-! ## Constants of the framework headers -/

/-- Constants and typedef widths that the driver takes from `camera.h` /
`sensor_helper.h` and the kernel headers. Their declarations are outside this source
file, so they are parameters of the embedding; the only facts assumed are the ones a C
compiler enforces (distinct `case` labels) and that `data_type`, the register-value
type, is an unsigned integer type of at least 8 bits. -/
structure Header where
  /-- Width in bits of `data_type`. -/
  data_type_bits : Nat
  data_type_bits_ge : 8 ≤ data_type_bits
  /-- Value of `info->isp_wdr_mode` that selects dual-exposure (HDR) operation. -/
  ISP_DOL_WDR_MODE : Int
  STBY_ON : Int
  STBY_OFF : Int
  PWR_ON : Int
  PWR_OFF : Int
  power_labels_distinct : [STBY_ON, STBY_OFF, PWR_ON, PWR_OFF].Nodup
  EINVAL : Int
  ENODEV : Int
  /-- Command codes handled by `sensor_ioctl` (`unsigned int cmd`). -/
  GET_CURRENT_WIN_CFG : Nat
  SET_FPS : Nat
  VIDIOC_VIN_SENSOR_EXP_GAIN : Nat
  VIDIOC_VIN_SENSOR_SET_FPS : Nat
  VIDIOC_VIN_SENSOR_CFG_REQ : Nat
  ioctl_labels_distinct :
    [GET_CURRENT_WIN_CFG, SET_FPS, VIDIOC_VIN_SENSOR_EXP_GAIN, VIDIOC_VIN_SENSOR_SET_FPS,
      VIDIOC_VIN_SENSOR_CFG_REQ].Nodup

/-- Conversion of an `int` value to `data_type`. -/
def to_data_type (K : Header) (x : Int) : Nat := (x % 2 ^ K.data_type_bits).toNat

/-- Source constant `#define MCLK (27 * 1000 * 1000)`. -/
def MCLK : Nat := 27 * 1000 * 1000

/-- Source constant `#define V4L2_IDENT_SENSOR 0x9e39`. -/
def V4L2_IDENT_SENSOR : Nat := 0x9e39

/-- Source constant `#define HDR_RATIO 32`. -/
def HDR_RATIO : Nat := 32

/-! ## Actions on the outside world -/

/-- GPIO lines named by the driver. -/
inductive gpio_pin
  | PWDN
  | RESET
  | POWER_EN
deriving DecidableEq, Repr

/-- GPIO output levels. -/
inductive gpio_level
  | CSI_GPIO_LOW
  | CSI_GPIO_HIGH
deriving DecidableEq, Repr

/-- Power rails named by the driver. -/
inductive pmu_channel
  | IOVDD
  | AVDD
  | DVDD
  | AFVDD
deriving DecidableEq, Repr

/-- The `ON` / `OFF` argument of the rail and clock helpers. -/
inductive on_off
  | OFF
  | ON
deriving DecidableEq, Repr

/-- One call of a helper that acts on the outside world. -/
inductive Action
  | cci_lock
  | cci_unlock
  | read (reg : Nat)
  | write (reg : Nat) (value : Nat)
  | vin_gpio_set_status (pin : gpio_pin) (status : Nat)
  | vin_gpio_write (pin : gpio_pin) (level : gpio_level)
  | vin_set_pmu_channel (channel : pmu_channel) (state : on_off)
  | vin_set_mclk (state : on_off)
  | vin_set_mclk_freq (hz : Nat)
  | usleep_range (lo : Nat) (hi : Nat)
  | sensor_cfg_req
deriving DecidableEq, Repr

/-- Outcome of one `sensor_read`: either it returns 0 and stores the register value, or
it returns a non-zero code and may or may not have stored something. -/
inductive ReadResult
  | ok (value : Nat)
  | fail (ret : Int) (nonzero : ret ≠ 0) (stored : Option Nat)

/-- The register bus behind `sensor_read` / `sensor_write`. The outcome of a
transaction may depend on everything done before it (the trace so far). -/
structure Bus where
  /-- Return code of `sensor_write(reg, value)`; 0 is success. -/
  write_ret : List Action → Nat → Nat → Int
  /-- Outcome of `sensor_read(reg, &value)`. -/
  read_res : List Action → Nat → ReadResult

/-! ## Driver state -/

/-- One entry of `sensor_win_sizes` (the fields the driver sets). -/
structure sensor_win_size where
  width : Nat
  height : Nat
  hoffset : Nat
  voffset : Nat
  hts : Nat
  vts : Nat
  pclk : Nat
  mipi_bps : Nat
  fps_fixed : Nat
  bin_factor : Nat
  /-- Whether the entry sets `.if_mode = MIPI_VC_WDR_MODE, .wdr_mode = ISP_DOL_WDR_MODE`. -/
  wdr : Bool
  intg_min : Nat
  intg_max : Nat
  gain_min : Nat
  gain_max : Nat
  regs : List (Nat × Nat)
deriving DecidableEq, Repr

/-- The fields of `struct sensor_info` that the functions embedded here read or write.
`exp` and `gain` hold 32-bit patterns. -/
structure sensor_info where
  isp_wdr_mode : Int
  exp : Nat
  gain : Nat
  width : Nat
  height : Nat
  current_wins : Option sensor_win_size

/-- Driver instance state, the file-scope variable `sc530ai_sensor_vts`, and the trace
of actions issued so far (oldest first). -/
structure World where
  info : sensor_info
  sc530ai_sensor_vts : Int
  trace : List Action

/-- Append one action to the trace. -/
def World.emit (w : World) (a : Action) : World :=
  { w with trace := w.trace ++ [a] }

/-- Call of `sensor_write(sd, reg, value)`: the return code comes from the bus, the
call is recorded. -/
def sensor_write (bus : Bus) (w : World) (reg value : Nat) : Int × World :=
  (bus.write_ret w.trace reg value, w.emit (Action.write reg value))

/-- Call of `sensor_read(sd, reg, &rdval)`. -/
def sensor_read (bus : Bus) (w : World) (reg : Nat) : ReadResult × World :=
  (bus.read_res w.trace reg, w.emit (Action.read reg))

/-! ## Exposure -/

/-- Function `sensor_g_exp`: returns 0 and stores `info->exp` into the `__s32` result. -/
def sensor_g_exp (w : World) : Int × Int :=
  (0, to_s32 w.info.exp)

/-- Function `sensor_s_exp(sd, exp_val)` with `unsigned int exp_val`. The return codes of the
register writes are discarded, as in the source. -/
def sensor_s_exp (K : Header) (bus : Bus) (w : World) (exp_val : Nat) : Int × World :=
  if w.info.isp_wdr_mode = K.ISP_DOL_WDR_MODE then
    let exp_val := if exp_val < 16 * HDR_RATIO then 16 * HDR_RATIO else exp_val
    let exphigh := to_uchar (0x0f &&& (exp_val >>> 15))
    let expmid := to_uchar (0xff &&& (exp_val >>> 7))
    let explow := to_uchar (0xf0 &&& shl_uint exp_val 1)
    let w := (sensor_write bus w 0x3e02 explow).2
    let w := (sensor_write bus w 0x3e01 expmid).2
    let w := (sensor_write bus w 0x3e00 exphigh).2
    let exp_val := exp_val / HDR_RATIO
    let expmid := to_uchar (0xff &&& (exp_val >>> 7))
    let explow := to_uchar (0xf0 &&& shl_uint exp_val 1)
    let w := (sensor_write bus w 0x3e05 explow).2
    let w := (sensor_write bus w 0x3e04 expmid).2
    (0, { w with info := { w.info with exp := exp_val } })
  else
    let exp_val := if exp_val < 16 then 16 else exp_val
    let exphigh := to_uchar (0xf &&& (exp_val >>> 15))
    let expmid := to_uchar (0xff &&& (exp_val >>> 7))
    let explow := to_uchar (0xf0 &&& shl_uint exp_val 1)
    let w := (sensor_write bus w 0x3e02 explow).2
    let w := (sensor_write bus w 0x3e01 expmid).2
    let w := (sensor_write bus w 0x3e00 exphigh).2
    (0, { w with info := { w.info with exp := exp_val } })

/-! ## Gain -/

/-- Function `sensor_g_gain`: returns 0 and stores `info->gain` into the `__s32` result. -/
def sensor_g_gain (w : World) : Int × Int :=
  (0, to_s32 w.info.gain)

/-- The three `data_type` locals of `sensor_s_gain`. -/
structure GainCode where
  gainana : Nat
  gaindighigh : Nat
  gaindiglow : Nat
deriving DecidableEq, Repr

/-- The bracket chain of `sensor_s_gain` (the `if (gain < 256) ... else ...` block),
as a function of the scaled gain `gain = gain_val << 3`. Products are `int` products
(wrapping), `/` is C's truncating division. -/
def sensor_s_gain_code (K : Header) (gain : Int) : GainCode :=
  if gain < 256 then
    ⟨to_data_type K 0x00, to_data_type K 0x00, to_data_type K gain⟩
  else if gain < 326 then
    ⟨to_data_type K 0x01, to_data_type K 0x00,
      to_data_type K (Int.tdiv (wrap_int (gain * 256)) 512)⟩
  else if gain < 653 then
    ⟨to_data_type K 0x40, to_data_type K 0x00,
      to_data_type K (Int.tdiv (wrap_int (gain * 256)) 653)⟩
  else if gain < 1306 then
    ⟨to_data_type K 0x48, to_data_type K 0x00,
      to_data_type K (Int.tdiv (wrap_int (gain * 256)) 1306)⟩
  else if gain < 2611 then
    ⟨to_data_type K 0x49, to_data_type K 0x00,
      to_data_type K (Int.tdiv (wrap_int (gain * 256)) 2661)⟩
  else if gain < 5222 then
    ⟨to_data_type K 0x4B, to_data_type K 0x00,
      to_data_type K (Int.tdiv (wrap_int (gain * 256)) 5222)⟩
  else if gain < 10445 then
    ⟨to_data_type K 0x4F, to_data_type K 0x00,
      to_data_type K (Int.tdiv (wrap_int (gain * 256)) 10445)⟩
  else if gain < 20890 then
    ⟨to_data_type K 0x5F, to_data_type K 0x00,
      to_data_type K (Int.tdiv (wrap_int (gain * 256)) 20890)⟩
  else
    ⟨to_data_type K 0x5F, to_data_type K 0x01,
      to_data_type K (Int.tdiv (Int.tdiv (wrap_int (gain * 256)) 20890) 2)⟩

/-- Function `sensor_s_gain(sd, gain_val)` with `int gain_val`. `gain_val << 3` is the wrapping
32-bit shift; the return codes of the register writes are discarded, as in the source. -/
def sensor_s_gain (K : Header) (bus : Bus) (w : World) (gain_val : Int) : Int × World :=
  let gain := wrap_int (gain_val * 8)
  let c := sensor_s_gain_code K gain
  let w :=
    if w.info.isp_wdr_mode = K.ISP_DOL_WDR_MODE then
      let w := (sensor_write bus w 0x3e13 (to_uchar c.gainana)).2
      let w := (sensor_write bus w 0x3e11 (to_uchar c.gaindiglow)).2
      (sensor_write bus w 0x3e10 (to_uchar c.gaindighigh)).2
    else w
  let w := (sensor_write bus w 0x3e09 (to_uchar c.gainana)).2
  let w := (sensor_write bus w 0x3e07 (to_uchar c.gaindiglow)).2
  let w := (sensor_write bus w 0x3e06 (to_uchar c.gaindighigh)).2
  (0, { w with info := { w.info with gain := to_uint gain_val } })

/-- Function `sensor_s_exp_gain(sd, exp_gain)`; the arguments are the values of the `int`
locals `exp_val` and `gain_val` right after they are loaded from `*exp_gain`. -/
def sensor_s_exp_gain (K : Header) (bus : Bus) (w : World) (exp_val gain_val : Int) :
    Int × World :=
  let gain_val := if gain_val < 1 * 16 then 16 else gain_val
  let exp_val := if exp_val > 0xfffff then 0xfffff else exp_val
  let w := (sensor_s_exp K bus w (to_uint exp_val)).2
  let w := (sensor_s_gain K bus w gain_val).2
  (0, { w with info := { w.info with exp := to_uint exp_val, gain := to_uint gain_val } })

/-! ## Standby and power sequencing -/

/-- Function `sensor_s_sw_stby(sd, on_off)`: read-modify-write of register 0x0100. -/
def sensor_s_sw_stby (K : Header) (bus : Bus) (w : World) (on_off : Int) : Int × World :=
  match sensor_read bus w 0x0100 with
  | (ReadResult.fail ret _ _, w) => (ret, w)
  | (ReadResult.ok rdval, w) =>
    if on_off = K.STBY_ON then
      sensor_write bus w 0x0100 (rdval &&& 0xfe)
    else
      sensor_write bus w 0x0100 (rdval ||| 0x01)

/-- Function `sensor_power(sd, on)`. The `switch` is a chain of tests on the (pairwise distinct)
case labels. In the two standby cases the value of `ret` only feeds a log message, and
every handled case leaves the `switch` by `break` and reaches `return 0`. -/
def sensor_power (K : Header) (bus : Bus) (w : World) (cmd : Int) : Int × World :=
  if cmd = K.STBY_ON then
    let w := w.emit Action.cci_lock
    let w := (sensor_s_sw_stby K bus w K.STBY_ON).2
    let w := w.emit (Action.usleep_range 10000 12000)
    let w := w.emit Action.cci_unlock
    (0, w)
  else if cmd = K.STBY_OFF then
    let w := w.emit Action.cci_lock
    let w := w.emit (Action.usleep_range 10000 12000)
    let w := (sensor_s_sw_stby K bus w K.STBY_OFF).2
    let w := w.emit Action.cci_unlock
    (0, w)
  else if cmd = K.PWR_ON then
    let w := w.emit Action.cci_lock
    let w := w.emit (Action.vin_gpio_set_status gpio_pin.PWDN 1)
    let w := w.emit (Action.vin_gpio_set_status gpio_pin.RESET 1)
    let w := w.emit (Action.vin_gpio_set_status gpio_pin.POWER_EN 1)
    let w := w.emit (Action.vin_gpio_write gpio_pin.RESET gpio_level.CSI_GPIO_LOW)
    let w := w.emit (Action.vin_gpio_write gpio_pin.PWDN gpio_level.CSI_GPIO_LOW)
    let w := w.emit (Action.vin_gpio_write gpio_pin.POWER_EN gpio_level.CSI_GPIO_HIGH)
    let w := w.emit (Action.vin_set_pmu_channel pmu_channel.IOVDD on_off.ON)
    let w := w.emit (Action.vin_set_pmu_channel pmu_channel.DVDD on_off.ON)
    let w := w.emit (Action.vin_set_pmu_channel pmu_channel.AVDD on_off.ON)
    let w := w.emit (Action.usleep_range 100 120)
    let w := w.emit (Action.vin_gpio_write gpio_pin.RESET gpio_level.CSI_GPIO_HIGH)
    let w := w.emit (Action.vin_gpio_write gpio_pin.PWDN gpio_level.CSI_GPIO_HIGH)
    let w := w.emit (Action.usleep_range 5000 7000)
    let w := w.emit (Action.vin_set_mclk on_off.ON)
    let w := w.emit (Action.usleep_range 5000 7000)
    let w := w.emit (Action.vin_set_mclk_freq MCLK)
    let w := w.emit (Action.usleep_range 5000 7000)
    let w := w.emit Action.cci_unlock
    (0, w)
  else if cmd = K.PWR_OFF then
    let w := w.emit Action.cci_lock
    let w := w.emit (Action.vin_gpio_set_status gpio_pin.PWDN 1)
    let w := w.emit (Action.vin_gpio_set_status gpio_pin.RESET 1)
    let w := w.emit (Action.vin_gpio_write gpio_pin.RESET gpio_level.CSI_GPIO_LOW)
    let w := w.emit (Action.vin_gpio_write gpio_pin.PWDN gpio_level.CSI_GPIO_LOW)
    let w := w.emit (Action.vin_set_mclk on_off.OFF)
    let w := w.emit (Action.vin_set_pmu_channel pmu_channel.AFVDD on_off.OFF)
    let w := w.emit (Action.vin_set_pmu_channel pmu_channel.AVDD on_off.OFF)
    let w := w.emit (Action.vin_set_pmu_channel pmu_channel.IOVDD on_off.OFF)
    let w := w.emit (Action.vin_set_pmu_channel pmu_channel.DVDD on_off.OFF)
    let w := w.emit (Action.vin_gpio_write gpio_pin.POWER_EN gpio_level.CSI_GPIO_LOW)
    let w := w.emit (Action.vin_gpio_set_status gpio_pin.RESET 0)
    let w := w.emit (Action.vin_gpio_set_status gpio_pin.PWDN 0)
    let w := w.emit (Action.vin_gpio_set_status gpio_pin.POWER_EN 0)
    let w := w.emit Action.cci_unlock
    (0, w)
  else
    (-K.EINVAL, w)

/-! ## Reset, detection, frame rate, ioctl -/

/-- Function `sensor_reset(sd, val)` with `u32 val`. -/
def sensor_reset (K : Header) (w : World) (val : Nat) : Int × World :=
  if val = 0 then
    let w := w.emit (Action.vin_gpio_write gpio_pin.RESET gpio_level.CSI_GPIO_HIGH)
    let w := w.emit (Action.usleep_range 1000 1200)
    (0, w)
  else if val = 1 then
    let w := w.emit (Action.vin_gpio_write gpio_pin.RESET gpio_level.CSI_GPIO_LOW)
    let w := w.emit (Action.usleep_range 1000 1200)
    (0, w)
  else
    (-K.EINVAL, w)

/-- Content of the local `rdval` after a `sensor_read(sd, reg, &rdval)` whose return
code is not looked at: the value the helper stored, else the previous content. -/
def ReadResult.store (r : ReadResult) (old : Nat) : Nat :=
  match r with
  | ReadResult.ok value => value
  | ReadResult.fail _ _ stored => stored.getD old

/-- Function `sensor_detect(sd)`: `rdval` starts at 0, the return codes of the two reads
are discarded, as in the source. -/
def sensor_detect (K : Header) (bus : Bus) (w : World) : Int × World :=
  let rdval : Nat := 0
  let r := sensor_read bus w 0x3107
  let rdval := r.1.store rdval
  let w := r.2
  if rdval ≠ V4L2_IDENT_SENSOR >>> 8 then (-K.ENODEV, w)
  else
    let r := sensor_read bus w 0x3108
    let rdval := r.1.store rdval
    let w := r.2
    if rdval ≠ V4L2_IDENT_SENSOR &&& 0xff then (-K.ENODEV, w)
    else (0, w)

/-- Function `sensor_s_fps(sd, fps)`, on the value `fps->fps` taken as a non-negative
number. Undefined (`none`) when there is no current window (null `current_wins`) or a
divisor is 0. The quotient is stored in the `int` variable `sc530ai_sensor_vts`. -/
def sensor_s_fps (w : World) (fps : Nat) : Option (Int × World) :=
  match w.info.current_wins with
  | none => none
  | some wsize =>
    if fps = 0 ∨ wsize.hts = 0 then none
    else some (0, { w with sc530ai_sensor_vts := to_s32 (wsize.pclk / fps / wsize.hts) })

/-- What the `void *arg` of `sensor_ioctl` points to. -/
inductive ioctl_arg
  | exp_gain (exp_val : Int) (gain_val : Int)
  | fps (fps : Nat)
  | other

/-- Function `sensor_ioctl(sd, cmd, arg)`. The result is the return value, the window
descriptor copied into `*arg` (by `GET_CURRENT_WIN_CFG`), and the new state; `none` when
`arg` does not point to what the handled command casts it to. `sensor_cfg_req` is a
helper outside this file, recorded as an action. -/
def sensor_ioctl (K : Header) (bus : Bus) (w : World) (cmd : Nat) (arg : ioctl_arg) :
    Option (Int × Option sensor_win_size × World) :=
  if cmd = K.GET_CURRENT_WIN_CFG then
    match w.info.current_wins with
    | some wins => some (0, some wins, w)
    | none => some (-1, none, w)
  else if cmd = K.SET_FPS then
    some (0, none, w)
  else if cmd = K.VIDIOC_VIN_SENSOR_EXP_GAIN then
    match arg with
    | ioctl_arg.exp_gain exp_val gain_val =>
      some ((sensor_s_exp_gain K bus w exp_val gain_val).1, none,
        (sensor_s_exp_gain K bus w exp_val gain_val).2)
    | _ => none
  else if cmd = K.VIDIOC_VIN_SENSOR_SET_FPS then
    match arg with
    | ioctl_arg.fps fps => (sensor_s_fps w fps).map (fun r => (r.1, none, r.2))
    | _ => none
  else if cmd = K.VIDIOC_VIN_SENSOR_CFG_REQ then
    some (0, none, w.emit Action.sensor_cfg_req)
  else
    some (-K.EINVAL, none, w)

/-! ## Register tables and window sizes -/

/-- Register table `sensor_default_regs` of the source (0 entries, in source order). -/
def sensor_default_regs : List (Nat × Nat) :=
  []

/-- Register table `sensor_2880x1620_30fps_regs` of the source (144 entries, in source order). -/
def sensor_2880x1620_30fps_regs : List (Nat × Nat) :=
  [(0x0103, 0x01), (0x0100, 0x00), (0x36e9, 0x80), (0x37f9, 0x80), (0x301f, 0x1e), (0x3250, 0x40),
   (0x3251, 0x98), (0x3253, 0x0c), (0x325f, 0x20), (0x3301, 0x08), (0x3304, 0x50), (0x3306, 0x78),
   (0x3308, 0x14), (0x3309, 0x70), (0x330a, 0x00), (0x330b, 0xd8), (0x330d, 0x10), (0x331e, 0x41),
   (0x331f, 0x61), (0x3333, 0x10), (0x335d, 0x60), (0x335e, 0x06), (0x335f, 0x08), (0x3364, 0x56),
   (0x3366, 0x01), (0x337c, 0x02), (0x337d, 0x0a), (0x3390, 0x01), (0x3391, 0x03), (0x3392, 0x07),
   (0x3393, 0x08), (0x3394, 0x08), (0x3395, 0x08), (0x3396, 0x40), (0x3397, 0x48), (0x3398, 0x4b),
   (0x3399, 0x08), (0x339a, 0x08), (0x339b, 0x08), (0x339c, 0x1d), (0x33a2, 0x04), (0x33ae, 0x30),
   (0x33af, 0x50), (0x33b1, 0x80), (0x33b2, 0x48), (0x33b3, 0x30), (0x349f, 0x02), (0x34a6, 0x48),
   (0x34a7, 0x4b), (0x34a8, 0x30), (0x34a9, 0x18), (0x34f8, 0x5f), (0x34f9, 0x08), (0x3632, 0x48),
   (0x3633, 0x32), (0x3637, 0x29), (0x3638, 0xc1), (0x363b, 0x20), (0x363d, 0x02), (0x3670, 0x09),
   (0x3674, 0x8b), (0x3675, 0xc6), (0x3676, 0x8b), (0x367c, 0x40), (0x367d, 0x48), (0x3690, 0x32),
   (0x3691, 0x43), (0x3692, 0x33), (0x3693, 0x40), (0x3694, 0x4b), (0x3698, 0x85), (0x3699, 0x8f),
   (0x369a, 0xa0), (0x369b, 0xc3), (0x36a2, 0x49), (0x36a3, 0x4b), (0x36a4, 0x4f), (0x36d0, 0x01),
   (0x36ec, 0x13), (0x370f, 0x01), (0x3722, 0x00), (0x3728, 0x10), (0x37b0, 0x03), (0x37b1, 0x03),
   (0x37b2, 0x83), (0x37b3, 0x48), (0x37b4, 0x49), (0x37fb, 0x25), (0x37fc, 0x01), (0x3901, 0x00),
   (0x3902, 0xc5), (0x3904, 0x08), (0x3905, 0x8c), (0x3909, 0x00), (0x391d, 0x04), (0x391f, 0x44),
   (0x3926, 0x21), (0x3929, 0x18), (0x3933, 0x82), (0x3934, 0x0a), (0x3937, 0x5f), (0x3939, 0x00),
   (0x393a, 0x00), (0x39dc, 0x02), (0x3e01, 0xcd), (0x3e02, 0xa0), (0x440e, 0x02), (0x4509, 0x20),
   (0x4800, 0x04), (0x4837, 0x28), (0x5010, 0x10), (0x5799, 0x06), (0x57ad, 0x00), (0x5ae0, 0xfe),
   (0x5ae1, 0x40), (0x5ae2, 0x30), (0x5ae3, 0x2a), (0x5ae4, 0x24), (0x5ae5, 0x30), (0x5ae6, 0x2a),
   (0x5ae7, 0x24), (0x5ae8, 0x3c), (0x5ae9, 0x30), (0x5aea, 0x28), (0x5aeb, 0x3c), (0x5aec, 0x30),
   (0x5aed, 0x28), (0x5aee, 0xfe), (0x5aef, 0x40), (0x5af4, 0x30), (0x5af5, 0x2a), (0x5af6, 0x24),
   (0x5af7, 0x30), (0x5af8, 0x2a), (0x5af9, 0x24), (0x5afa, 0x3c), (0x5afb, 0x30), (0x5afc, 0x28),
   (0x5afd, 0x3c), (0x5afe, 0x30), (0x5aff, 0x28), (0x36e9, 0x44), (0x37f9, 0x34), (0x0100, 0x01)]

/-- Register table `sensor_2880x1620_20fps_regs` of the source (146 entries, in source order). -/
def sensor_2880x1620_20fps_regs : List (Nat × Nat) :=
  [(0x0103, 0x01), (0x0100, 0x00), (0x36e9, 0x80), (0x37f9, 0x80), (0x301f, 0x1e), (0x320e, 0x09),
   (0x320f, 0xab), (0x3250, 0x40), (0x3251, 0x98), (0x3253, 0x0c), (0x325f, 0x20), (0x3301, 0x08),
   (0x3304, 0x50), (0x3306, 0x78), (0x3308, 0x14), (0x3309, 0x70), (0x330a, 0x00), (0x330b, 0xd8),
   (0x330d, 0x10), (0x331e, 0x41), (0x331f, 0x61), (0x3333, 0x10), (0x335d, 0x60), (0x335e, 0x06),
   (0x335f, 0x08), (0x3364, 0x56), (0x3366, 0x01), (0x337c, 0x02), (0x337d, 0x0a), (0x3390, 0x01),
   (0x3391, 0x03), (0x3392, 0x07), (0x3393, 0x08), (0x3394, 0x08), (0x3395, 0x08), (0x3396, 0x40),
   (0x3397, 0x48), (0x3398, 0x4b), (0x3399, 0x08), (0x339a, 0x08), (0x339b, 0x08), (0x339c, 0x1d),
   (0x33a2, 0x04), (0x33ae, 0x30), (0x33af, 0x50), (0x33b1, 0x80), (0x33b2, 0x48), (0x33b3, 0x30),
   (0x349f, 0x02), (0x34a6, 0x48), (0x34a7, 0x4b), (0x34a8, 0x30), (0x34a9, 0x18), (0x34f8, 0x5f),
   (0x34f9, 0x08), (0x3632, 0x48), (0x3633, 0x32), (0x3637, 0x29), (0x3638, 0xc1), (0x363b, 0x20),
   (0x363d, 0x02), (0x3670, 0x09), (0x3674, 0x8b), (0x3675, 0xc6), (0x3676, 0x8b), (0x367c, 0x40),
   (0x367d, 0x48), (0x3690, 0x32), (0x3691, 0x43), (0x3692, 0x33), (0x3693, 0x40), (0x3694, 0x4b),
   (0x3698, 0x85), (0x3699, 0x8f), (0x369a, 0xa0), (0x369b, 0xc3), (0x36a2, 0x49), (0x36a3, 0x4b),
   (0x36a4, 0x4f), (0x36d0, 0x01), (0x36ec, 0x13), (0x370f, 0x01), (0x3722, 0x00), (0x3728, 0x10),
   (0x37b0, 0x03), (0x37b1, 0x03), (0x37b2, 0x83), (0x37b3, 0x48), (0x37b4, 0x49), (0x37fb, 0x25),
   (0x37fc, 0x01), (0x3901, 0x00), (0x3902, 0xc5), (0x3904, 0x08), (0x3905, 0x8c), (0x3909, 0x00),
   (0x391d, 0x04), (0x391f, 0x44), (0x3926, 0x21), (0x3929, 0x18), (0x3933, 0x82), (0x3934, 0x0a),
   (0x3937, 0x5f), (0x3939, 0x00), (0x393a, 0x00), (0x39dc, 0x02), (0x3e01, 0xcd), (0x3e02, 0xa0),
   (0x440e, 0x02), (0x4509, 0x20), (0x4800, 0x04), (0x4837, 0x28), (0x5010, 0x10), (0x5799, 0x06),
   (0x57ad, 0x00), (0x5ae0, 0xfe), (0x5ae1, 0x40), (0x5ae2, 0x30), (0x5ae3, 0x2a), (0x5ae4, 0x24),
   (0x5ae5, 0x30), (0x5ae6, 0x2a), (0x5ae7, 0x24), (0x5ae8, 0x3c), (0x5ae9, 0x30), (0x5aea, 0x28),
   (0x5aeb, 0x3c), (0x5aec, 0x30), (0x5aed, 0x28), (0x5aee, 0xfe), (0x5aef, 0x40), (0x5af4, 0x30),
   (0x5af5, 0x2a), (0x5af6, 0x24), (0x5af7, 0x30), (0x5af8, 0x2a), (0x5af9, 0x24), (0x5afa, 0x3c),
   (0x5afb, 0x30), (0x5afc, 0x28), (0x5afd, 0x3c), (0x5afe, 0x30), (0x5aff, 0x28), (0x36e9, 0x44),
   (0x37f9, 0x34), (0x0100, 0x01)]

/-- Register table `sensor_2880x1620_60fps_regs` of the source (140 entries, in source order). -/
def sensor_2880x1620_60fps_regs : List (Nat × Nat) :=
  [(0x0103, 0x01), (0x0100, 0x00), (0x36e9, 0x80), (0x37f9, 0x80), (0x301f, 0x1d), (0x3250, 0x40),
   (0x3251, 0x98), (0x3253, 0x0c), (0x325f, 0x20), (0x3301, 0x08), (0x3304, 0x58), (0x3306, 0xa0),
   (0x3308, 0x14), (0x3309, 0x50), (0x330a, 0x01), (0x330b, 0x10), (0x330d, 0x10), (0x331e, 0x49),
   (0x331f, 0x41), (0x3333, 0x10), (0x335d, 0x60), (0x335e, 0x06), (0x335f, 0x08), (0x3364, 0x56),
   (0x3366, 0x01), (0x337c, 0x02), (0x337d, 0x0a), (0x3390, 0x01), (0x3391, 0x03), (0x3392, 0x07),
   (0x3393, 0x08), (0x3394, 0x08), (0x3395, 0x08), (0x3396, 0x48), (0x3397, 0x4b), (0x3398, 0x4f),
   (0x3399, 0x0a), (0x339a, 0x0a), (0x339b, 0x10), (0x339c, 0x22), (0x33a2, 0x04), (0x33ad, 0x24),
   (0x33ae, 0x38), (0x33af, 0x38), (0x33b1, 0x80), (0x33b2, 0x48), (0x33b3, 0x20), (0x349f, 0x02),
   (0x34a6, 0x48), (0x34a7, 0x4b), (0x34a8, 0x20), (0x34a9, 0x18), (0x34f8, 0x5f), (0x34f9, 0x04),
   (0x3632, 0x48), (0x3633, 0x32), (0x3637, 0x29), (0x3638, 0xc1), (0x363b, 0x20), (0x363d, 0x02),
   (0x3670, 0x09), (0x3674, 0x88), (0x3675, 0x88), (0x3676, 0x88), (0x367c, 0x40), (0x367d, 0x48),
   (0x3690, 0x33), (0x3691, 0x34), (0x3692, 0x55), (0x3693, 0x4b), (0x3694, 0x4f), (0x3698, 0x85),
   (0x3699, 0x8f), (0x369a, 0xa0), (0x369b, 0xc3), (0x36a2, 0x49), (0x36a3, 0x4b), (0x36a4, 0x4f),
   (0x36d0, 0x01), (0x370f, 0x01), (0x3722, 0x00), (0x3728, 0x10), (0x37b0, 0x03), (0x37b1, 0x03),
   (0x37b2, 0x83), (0x37b3, 0x48), (0x37b4, 0x4f), (0x3901, 0x00), (0x3902, 0xc5), (0x3904, 0x08),
   (0x3905, 0x8d), (0x3909, 0x00), (0x391d, 0x04), (0x3926, 0x21), (0x3929, 0x18), (0x3933, 0x82),
   (0x3934, 0x08), (0x3937, 0x5b), (0x3939, 0x00), (0x393a, 0x01), (0x39dc, 0x02), (0x3e01, 0xcd),
   (0x3e02, 0xa0), (0x440e, 0x02), (0x4509, 0x20), (0x4800, 0x04), (0x5010, 0x10), (0x5799, 0x06),
   (0x57ad, 0x00), (0x5ae0, 0xfe), (0x5ae1, 0x40), (0x5ae2, 0x30), (0x5ae3, 0x2a), (0x5ae4, 0x24),
   (0x5ae5, 0x30), (0x5ae6, 0x2a), (0x5ae7, 0x24), (0x5ae8, 0x3c), (0x5ae9, 0x30), (0x5aea, 0x28),
   (0x5aeb, 0x3c), (0x5aec, 0x30), (0x5aed, 0x28), (0x5aee, 0xfe), (0x5aef, 0x40), (0x5af4, 0x30),
   (0x5af5, 0x2a), (0x5af6, 0x24), (0x5af7, 0x30), (0x5af8, 0x2a), (0x5af9, 0x24), (0x5afa, 0x3c),
   (0x5afb, 0x30), (0x5afc, 0x28), (0x5afd, 0x3c), (0x5afe, 0x30), (0x5aff, 0x28), (0x36e9, 0x44),
   (0x37f9, 0x44), (0x0100, 0x01)]

/-- Register table `sensor_2880x1620_30fps_shdr_regs` of the source (150 entries, in source order). -/
def sensor_2880x1620_30fps_shdr_regs : List (Nat × Nat) :=
  [(0x0103, 0x01), (0x0100, 0x00), (0x36e9, 0x80), (0x37f9, 0x80), (0x301f, 0x1c), (0x320e, 0x0c),
   (0x320f, 0xe4), (0x3250, 0xff), (0x3251, 0x98), (0x3253, 0x0c), (0x325f, 0x20), (0x3281, 0x01),
   (0x3301, 0x08), (0x3304, 0x58), (0x3306, 0xa0), (0x3308, 0x14), (0x3309, 0x50), (0x330a, 0x01),
   (0x330b, 0x10), (0x330d, 0x10), (0x331e, 0x49), (0x331f, 0x41), (0x3333, 0x10), (0x335d, 0x60),
   (0x335e, 0x06), (0x335f, 0x08), (0x3364, 0x56), (0x3366, 0x01), (0x337c, 0x02), (0x337d, 0x0a),
   (0x3390, 0x01), (0x3391, 0x03), (0x3392, 0x07), (0x3393, 0x08), (0x3394, 0x08), (0x3395, 0x08),
   (0x3396, 0x48), (0x3397, 0x4b), (0x3398, 0x4f), (0x3399, 0x0a), (0x339a, 0x0a), (0x339b, 0x10),
   (0x339c, 0x22), (0x33a2, 0x04), (0x33ad, 0x24), (0x33ae, 0x38), (0x33af, 0x38), (0x33b1, 0x80),
   (0x33b2, 0x48), (0x33b3, 0x20), (0x349f, 0x02), (0x34a6, 0x48), (0x34a7, 0x4b), (0x34a8, 0x20),
   (0x34a9, 0x18), (0x34f8, 0x5f), (0x34f9, 0x04), (0x3632, 0x48), (0x3633, 0x32), (0x3637, 0x29),
   (0x3638, 0xc1), (0x363b, 0x20), (0x363d, 0x02), (0x3670, 0x09), (0x3674, 0x88), (0x3675, 0x88),
   (0x3676, 0x88), (0x367c, 0x40), (0x367d, 0x48), (0x3690, 0x33), (0x3691, 0x34), (0x3692, 0x55),
   (0x3693, 0x4b), (0x3694, 0x4f), (0x3698, 0x85), (0x3699, 0x8f), (0x369a, 0xa0), (0x369b, 0xc3),
   (0x36a2, 0x49), (0x36a3, 0x4b), (0x36a4, 0x4f), (0x36d0, 0x01), (0x370f, 0x01), (0x3722, 0x00),
   (0x3728, 0x10), (0x37b0, 0x03), (0x37b1, 0x03), (0x37b2, 0x83), (0x37b3, 0x48), (0x37b4, 0x4f),
   (0x3901, 0x00), (0x3902, 0xc5), (0x3904, 0x08), (0x3905, 0x8d), (0x3909, 0x00), (0x391d, 0x04),
   (0x3926, 0x21), (0x3929, 0x18), (0x3933, 0x82), (0x3934, 0x08), (0x3937, 0x5b), (0x3939, 0x00),
   (0x393a, 0x01), (0x39dc, 0x02), (0x3c0f, 0x00), (0x3e00, 0x01), (0x3e01, 0x82), (0x3e02, 0x00),
   (0x3e04, 0x18), (0x3e05, 0x20), (0x3e23, 0x00), (0x3e24, 0xc8), (0x440e, 0x02), (0x4509, 0x20),
   (0x4800, 0x04), (0x4816, 0x11), (0x5010, 0x10), (0x5799, 0x06), (0x57ad, 0x00), (0x5ae0, 0xfe),
   (0x5ae1, 0x40), (0x5ae2, 0x30), (0x5ae3, 0x2a), (0x5ae4, 0x24), (0x5ae5, 0x30), (0x5ae6, 0x2a),
   (0x5ae7, 0x24), (0x5ae8, 0x3c), (0x5ae9, 0x30), (0x5aea, 0x28), (0x5aeb, 0x3c), (0x5aec, 0x30),
   (0x5aed, 0x28), (0x5aee, 0xfe), (0x5aef, 0x40), (0x5af4, 0x30), (0x5af5, 0x2a), (0x5af6, 0x24),
   (0x5af7, 0x30), (0x5af8, 0x2a), (0x5af9, 0x24), (0x5afa, 0x3c), (0x5afb, 0x30), (0x5afc, 0x28),
   (0x5afd, 0x3c), (0x5afe, 0x30), (0x5aff, 0x28), (0x36e9, 0x44), (0x37f9, 0x44), (0x0100, 0x01)]

/-- Register table `sensor_2880x1620_20fps_shdr_regs` of the source (150 entries, in source order). -/
def sensor_2880x1620_20fps_shdr_regs : List (Nat × Nat) :=
  [(0x0103, 0x01), (0x0100, 0x00), (0x36e9, 0x80), (0x37f9, 0x80), (0x301f, 0x1c), (0x320e, 0x13),
   (0x320f, 0x56), (0x3250, 0xff), (0x3251, 0x98), (0x3253, 0x0c), (0x325f, 0x20), (0x3281, 0x01),
   (0x3301, 0x08), (0x3304, 0x58), (0x3306, 0xa0), (0x3308, 0x14), (0x3309, 0x50), (0x330a, 0x01),
   (0x330b, 0x10), (0x330d, 0x10), (0x331e, 0x49), (0x331f, 0x41), (0x3333, 0x10), (0x335d, 0x60),
   (0x335e, 0x06), (0x335f, 0x08), (0x3364, 0x56), (0x3366, 0x01), (0x337c, 0x02), (0x337d, 0x0a),
   (0x3390, 0x01), (0x3391, 0x03), (0x3392, 0x07), (0x3393, 0x08), (0x3394, 0x08), (0x3395, 0x08),
   (0x3396, 0x48), (0x3397, 0x4b), (0x3398, 0x4f), (0x3399, 0x0a), (0x339a, 0x0a), (0x339b, 0x10),
   (0x339c, 0x22), (0x33a2, 0x04), (0x33ad, 0x24), (0x33ae, 0x38), (0x33af, 0x38), (0x33b1, 0x80),
   (0x33b2, 0x48), (0x33b3, 0x20), (0x349f, 0x02), (0x34a6, 0x48), (0x34a7, 0x4b), (0x34a8, 0x20),
   (0x34a9, 0x18), (0x34f8, 0x5f), (0x34f9, 0x04), (0x3632, 0x48), (0x3633, 0x32), (0x3637, 0x29),
   (0x3638, 0xc1), (0x363b, 0x20), (0x363d, 0x02), (0x3670, 0x09), (0x3674, 0x88), (0x3675, 0x88),
   (0x3676, 0x88), (0x367c, 0x40), (0x367d, 0x48), (0x3690, 0x33), (0x3691, 0x34), (0x3692, 0x55),
   (0x3693, 0x4b), (0x3694, 0x4f), (0x3698, 0x85), (0x3699, 0x8f), (0x369a, 0xa0), (0x369b, 0xc3),
   (0x36a2, 0x49), (0x36a3, 0x4b), (0x36a4, 0x4f), (0x36d0, 0x01), (0x370f, 0x01), (0x3722, 0x00),
   (0x3728, 0x10), (0x37b0, 0x03), (0x37b1, 0x03), (0x37b2, 0x83), (0x37b3, 0x48), (0x37b4, 0x4f),
   (0x3901, 0x00), (0x3902, 0xc5), (0x3904, 0x08), (0x3905, 0x8d), (0x3909, 0x00), (0x391d, 0x04),
   (0x3926, 0x21), (0x3929, 0x18), (0x3933, 0x82), (0x3934, 0x08), (0x3937, 0x5b), (0x3939, 0x00),
   (0x393a, 0x01), (0x39dc, 0x02), (0x3c0f, 0x00), (0x3e00, 0x01), (0x3e01, 0x82), (0x3e02, 0x00),
   (0x3e04, 0x18), (0x3e05, 0x20), (0x3e23, 0x00), (0x3e24, 0xc8), (0x440e, 0x02), (0x4509, 0x20),
   (0x4800, 0x04), (0x4816, 0x11), (0x5010, 0x10), (0x5799, 0x06), (0x57ad, 0x00), (0x5ae0, 0xfe),
   (0x5ae1, 0x40), (0x5ae2, 0x30), (0x5ae3, 0x2a), (0x5ae4, 0x24), (0x5ae5, 0x30), (0x5ae6, 0x2a),
   (0x5ae7, 0x24), (0x5ae8, 0x3c), (0x5ae9, 0x30), (0x5aea, 0x28), (0x5aeb, 0x3c), (0x5aec, 0x30),
   (0x5aed, 0x28), (0x5aee, 0xfe), (0x5aef, 0x40), (0x5af4, 0x30), (0x5af5, 0x2a), (0x5af6, 0x24),
   (0x5af7, 0x30), (0x5af8, 0x2a), (0x5af9, 0x24), (0x5afa, 0x3c), (0x5afb, 0x30), (0x5afc, 0x28),
   (0x5afd, 0x3c), (0x5afe, 0x30), (0x5aff, 0x28), (0x36e9, 0x44), (0x37f9, 0x44), (0x0100, 0x01)]

/-- Register table `sensor_2880x1620_15fps_shdr_regs` of the source (154 entries, in source order). -/
def sensor_2880x1620_15fps_shdr_regs : List (Nat × Nat) :=
  [(0x0103, 0x01), (0x0100, 0x00), (0x36e9, 0x80), (0x37f9, 0x80), (0x301f, 0x1f), (0x320e, 0x0c),
   (0x320f, 0xe4), (0x3250, 0xff), (0x3251, 0x98), (0x3253, 0x0c), (0x325f, 0x20), (0x3281, 0x01),
   (0x3301, 0x08), (0x3304, 0x50), (0x3306, 0x78), (0x3308, 0x14), (0x3309, 0x70), (0x330a, 0x00),
   (0x330b, 0xd8), (0x330d, 0x10), (0x331e, 0x41), (0x331f, 0x61), (0x3333, 0x10), (0x335d, 0x60),
   (0x335e, 0x06), (0x335f, 0x08), (0x3364, 0x56), (0x3366, 0x01), (0x337c, 0x02), (0x337d, 0x0a),
   (0x3390, 0x01), (0x3391, 0x03), (0x3392, 0x07), (0x3393, 0x08), (0x3394, 0x08), (0x3395, 0x08),
   (0x3396, 0x40), (0x3397, 0x48), (0x3398, 0x4b), (0x3399, 0x08), (0x339a, 0x08), (0x339b, 0x08),
   (0x339c, 0x1d), (0x33a2, 0x04), (0x33ae, 0x30), (0x33af, 0x50), (0x33b1, 0x80), (0x33b2, 0x48),
   (0x33b3, 0x30), (0x349f, 0x02), (0x34a6, 0x48), (0x34a7, 0x4b), (0x34a8, 0x30), (0x34a9, 0x18),
   (0x34f8, 0x5f), (0x34f9, 0x08), (0x3632, 0x48), (0x3633, 0x32), (0x3637, 0x29), (0x3638, 0xc1),
   (0x363b, 0x20), (0x363d, 0x02), (0x3670, 0x09), (0x3674, 0x8b), (0x3675, 0xc6), (0x3676, 0x8b),
   (0x367c, 0x40), (0x367d, 0x48), (0x3690, 0x32), (0x3691, 0x43), (0x3692, 0x33), (0x3693, 0x40),
   (0x3694, 0x4b), (0x3698, 0x85), (0x3699, 0x8f), (0x369a, 0xa0), (0x369b, 0xc3), (0x36a2, 0x49),
   (0x36a3, 0x4b), (0x36a4, 0x4f), (0x36d0, 0x01), (0x36ec, 0x13), (0x370f, 0x01), (0x3722, 0x00),
   (0x3728, 0x10), (0x37b0, 0x03), (0x37b1, 0x03), (0x37b2, 0x83), (0x37b3, 0x48), (0x37b4, 0x49),
   (0x37fb, 0x25), (0x37fc, 0x01), (0x3901, 0x00), (0x3902, 0xc5), (0x3904, 0x08), (0x3905, 0x8c),
   (0x3909, 0x00), (0x391d, 0x04), (0x391f, 0x44), (0x3926, 0x21), (0x3929, 0x18), (0x3933, 0x82),
   (0x3934, 0x0a), (0x3937, 0x5f), (0x3939, 0x00), (0x393a, 0x00), (0x39dc, 0x02), (0x3c0f, 0x00),
   (0x3e00, 0x01), (0x3e01, 0x82), (0x3e02, 0x00), (0x3e04, 0x18), (0x3e05, 0x20), (0x3e23, 0x00),
   (0x3e24, 0xc8), (0x440e, 0x02), (0x4509, 0x20), (0x4800, 0x04), (0x4816, 0x11), (0x4837, 0x28),
   (0x5010, 0x10), (0x5799, 0x06), (0x57ad, 0x00), (0x5ae0, 0xfe), (0x5ae1, 0x40), (0x5ae2, 0x30),
   (0x5ae3, 0x2a), (0x5ae4, 0x24), (0x5ae5, 0x30), (0x5ae6, 0x2a), (0x5ae7, 0x24), (0x5ae8, 0x3c),
   (0x5ae9, 0x30), (0x5aea, 0x28), (0x5aeb, 0x3c), (0x5aec, 0x30), (0x5aed, 0x28), (0x5aee, 0xfe),
   (0x5aef, 0x40), (0x5af4, 0x30), (0x5af5, 0x2a), (0x5af6, 0x24), (0x5af7, 0x30), (0x5af8, 0x2a),
   (0x5af9, 0x24), (0x5afa, 0x3c), (0x5afb, 0x30), (0x5afc, 0x28), (0x5afd, 0x3c), (0x5afe, 0x30),
   (0x5aff, 0x28), (0x36e9, 0x44), (0x37f9, 0x34), (0x0100, 0x01)]

/-- Register table `sensor_fmt_raw` of the source (0 entries, in source order). -/
def sensor_fmt_raw : List (Nat × Nat) :=
  []

/-- The array `sensor_win_sizes`, in source order. -/
def sensor_win_sizes : List sensor_win_size :=
  [{ width := 2880, height := 1620, hoffset := 0, voffset := 0, hts := 3200, vts := 1650,
     pclk := 158400000, mipi_bps := 396 * 1000 * 1000, fps_fixed := 30, bin_factor := 1,
     wdr := false, intg_min := 1 <<< 4, intg_max := (2 * 3300 - 8) <<< 4,
     gain_min := 1 <<< 4, gain_max := 326 <<< 4, regs := sensor_2880x1620_30fps_regs },
   { width := 2880, height := 1620, hoffset := 0, voffset := 0, hts := 3200, vts := 2475,
     pclk := 158400000, mipi_bps := 396 * 1000 * 1000, fps_fixed := 20, bin_factor := 1,
     wdr := false, intg_min := 1 <<< 4, intg_max := (2 * 3300 - 8) <<< 4,
     gain_min := 1 <<< 4, gain_max := 326 <<< 4, regs := sensor_2880x1620_20fps_regs },
   { width := 2880, height := 1620, hoffset := 0, voffset := 0, hts := 3200, vts := 1650,
     pclk := 316800000, mipi_bps := 792 * 1000 * 1000, fps_fixed := 60, bin_factor := 1,
     wdr := false, intg_min := 1 <<< 4, intg_max := (2 * 3300 - 8) <<< 4,
     gain_min := 1 <<< 4, gain_max := 326 <<< 4, regs := sensor_2880x1620_60fps_regs },
   { width := 2880, height := 1620, hoffset := 0, voffset := 0, hts := 3200, vts := 3300,
     pclk := 316800000, mipi_bps := 792 * 1000 * 1000, fps_fixed := 30, bin_factor := 1,
     wdr := true, intg_min := 1 <<< 4, intg_max := (2 * 3300 - 8) <<< 4,
     gain_min := 1 <<< 4, gain_max := 326 <<< 4, regs := sensor_2880x1620_30fps_shdr_regs },
   { width := 2880, height := 1620, hoffset := 0, voffset := 0, hts := 3200, vts := 4950,
     pclk := 316800000, mipi_bps := 792 * 1000 * 1000, fps_fixed := 20, bin_factor := 1,
     wdr := true, intg_min := 1 <<< 4, intg_max := (2 * 4950 - 8) <<< 4,
     gain_min := 1 <<< 4, gain_max := 326 <<< 4, regs := sensor_2880x1620_20fps_shdr_regs },
   { width := 2880, height := 1620, hoffset := 0, voffset := 0, hts := 3200, vts := 3300,
     pclk := 158400000, mipi_bps := 396 * 1000 * 1000, fps_fixed := 15, bin_factor := 1,
     wdr := true, intg_min := 1 <<< 4, intg_max := (2 * 3300 - 8) <<< 4,
     gain_min := 1 <<< 4, gain_max := 326 <<< 4, regs := sensor_2880x1620_15fps_shdr_regs }]

/-- The request a window-size entry answers: resolution, fixed frame rate, HDR flag. -/
def sensor_win_size.request (d : sensor_win_size) : Nat × Nat × Nat × Bool :=
  (d.width, d.height, d.fps_fixed, d.wdr)

/-! ## Stream control -/

/-- Modelled from the spec: `sensor_write_array` is defined in the sensor helper
library, not in this source file. The spec describes it as a multi-write over an
ordered sequence of (address, value) pairs, stopping at the first error: the entries
are written in order with `sensor_write`, and the first non-zero return code ends the
walk and is returned. -/
def sensor_write_array (bus : Bus) (w : World) : List (Nat × Nat) → Int × World
  | [] => (0, w)
  | (reg, value) :: rest =>
    if (sensor_write bus w reg value).1 ≠ 0 then sensor_write bus w reg value
    else sensor_write_array bus (sensor_write bus w reg value).2 rest

/-- Function `sensor_reg_init(info)`. `info->fmt` is `&sensor_formats[0]`, the only
format, whose register list is `sensor_fmt_raw`; no entry of `sensor_win_sizes` has a
`set_size` hook. Undefined (`none`) without a current window. The results of the second
and third `sensor_write_array` are discarded, as in the source. -/
def sensor_reg_init (bus : Bus) (w : World) : Option (Int × World) :=
  match w.info.current_wins with
  | none => none
  | some wsize =>
    let r := sensor_write_array bus w sensor_default_regs
    if r.1 < 0 then some (r.1, r.2)
    else
      let w := r.2
      let w := (sensor_write_array bus w sensor_fmt_raw).2
      let w := (sensor_write_array bus w wsize.regs).2
      some (0, { w with
        info := { w.info with width := wsize.width, height := wsize.height }
        sc530ai_sensor_vts := to_s32 wsize.vts })

/-- Function `sensor_s_stream(sd, enable)`. Its first statement reads fields of
`*info->current_wins` for a log line, so it is undefined (`none`) without a current
window. -/
def sensor_s_stream (bus : Bus) (w : World) (enable : Int) : Option (Int × World) :=
  match w.info.current_wins with
  | none => none
  | some _ =>
    if enable = 0 then some (0, w)
    else sensor_reg_init bus w

/-! ## Observations on traces and register codes -/

/-- The value most recently written to register `reg` in a trace, if any. -/
def last_written (reg : Nat) : List Action → Option Nat
  | [] => none
  | Action.write r v :: rest =>
    match last_written reg rest with
    | some v2 => some v2
    | none => if r = reg then some v else none
  | _ :: rest => last_written reg rest

/-- Positions (0-based) at which an action occurs in a trace. -/
def positions (a : Action) (t : List Action) : List Nat :=
  (List.range t.length).filter (fun i => t.get? i = some a)

/-- Whether every occurrence of `a` lies strictly before every occurrence of `b`. -/
def all_before (a b : Action) (t : List Action) : Bool :=
  (positions a t).all (fun i => (positions b t).all (fun j => decide (i < j)))

/-- Analog gain factor selected by an analog-gain register code, as given by the
comments of `sensor_s_gain` (`gian value:...`); 0 for a code the driver never writes. -/
def analog_gain_value (gainana : Nat) : ℚ :=
  if gainana = 0x00 then 1
  else if gainana = 0x01 then 2
  else if gainana = 0x40 then 255 / 100
  else if gainana = 0x48 then 51 / 10
  else if gainana = 0x49 then 102 / 10
  else if gainana = 0x4B then 204 / 10
  else if gainana = 0x4F then 408 / 10
  else if gainana = 0x5F then 816 / 10
  else 0

/-- Effective gain of the register bytes written for a gain code: analog factor times
`1 + digital-high` times `digital-low / 128`. -/
def effective_gain (c : GainCode) : ℚ :=
  analog_gain_value (to_uchar c.gainana) * (1 + (to_uchar c.gaindighigh : ℚ))
    * (to_uchar c.gaindiglow : ℚ) / 128

/-- Whether an action drives the RESET or PWDN level, switches a power rail or the
clock, sets the clock frequency, or is a delay (the steps a power sequence orders);
the lock, the GPIO direction set-up and the POWER_EN line are left out. -/
def is_power_step : Action → Bool
  | Action.vin_gpio_write gpio_pin.RESET _ => true
  | Action.vin_gpio_write gpio_pin.PWDN _ => true
  | Action.vin_set_pmu_channel _ _ => true
  | Action.vin_set_mclk _ => true
  | Action.vin_set_mclk_freq _ => true
  | Action.usleep_range _ _ => true
  | _ => false

/-- Whether an action switches a power rail. -/
def is_rail_switch : Action → Bool
  | Action.vin_set_pmu_channel _ _ => true
  | _ => false

/-! ## Concrete instances -/

/-- One admissible choice of the header constants (16-bit `data_type`). -/
def sample_header : Header where
  data_type_bits := 16
  data_type_bits_ge := by decide
  ISP_DOL_WDR_MODE := 1
  STBY_ON := 2
  STBY_OFF := 3
  PWR_ON := 1
  PWR_OFF := 0
  power_labels_distinct := by decide
  EINVAL := 22
  ENODEV := 19
  GET_CURRENT_WIN_CFG := 1
  SET_FPS := 2
  VIDIOC_VIN_SENSOR_EXP_GAIN := 3
  VIDIOC_VIN_SENSOR_SET_FPS := 4
  VIDIOC_VIN_SENSOR_CFG_REQ := 5
  ioctl_labels_distinct := by decide

/-- A bus on which every transaction succeeds and every register reads 0. -/
def ok_bus : Bus where
  write_ret := fun _ _ _ => 0
  read_res := fun _ _ => ReadResult.ok 0

/-- A freshly probed instance (`exp = gain = 0`, empty trace) in the given WDR mode. -/
def fresh_world (isp_wdr_mode : Int) : World where
  info := { isp_wdr_mode := isp_wdr_mode, exp := 0, gain := 0, width := 0, height := 0,
            current_wins := none }
  sc530ai_sensor_vts := 0
  trace := []

/-- A bus on which every write and every read fails with code -5. -/
def failing_bus : Bus where
  write_ret := fun _ _ _ => -5
  read_res := fun _ _ => ReadResult.fail (-5) (by decide) none

/-- A bus on which the identity registers 0x3107 and 0x3108 read `a` and `b` (every
other register reads 0) and every write succeeds. -/
def ident_bus (a b : Nat) : Bus where
  write_ret := fun _ _ _ => 0
  read_res := fun _ reg =>
    ReadResult.ok (if reg = 0x3107 then a else if reg = 0x3108 then b else 0)

/-- A fresh instance whose current window is the given descriptor. -/
def mode_world (d : sensor_win_size) : World where
  info := { isp_wdr_mode := 0, exp := 0, gain := 0, width := 0, height := 0,
            current_wins := some d }
  sc530ai_sensor_vts := 0
  trace := []

/-- The first entry of `sensor_win_sizes` (2880x1620, 30 fps, non-HDR). -/
def win_2880x1620_30fps : sensor_win_size :=
  { width := 2880, height := 1620, hoffset := 0, voffset := 0, hts := 3200, vts := 1650,
    pclk := 158400000, mipi_bps := 396 * 1000 * 1000, fps_fixed := 30, bin_factor := 1,
    wdr := false, intg_min := 1 <<< 4, intg_max := (2 * 3300 - 8) <<< 4,
    gain_min := 1 <<< 4, gain_max := 326 <<< 4, regs := sensor_2880x1620_30fps_regs }

/-! ## Arithmetic helpers -/

theorem two_pow_data_type_bits_ge (K : Header) : (256 : Int) ≤ 2 ^ K.data_type_bits := by
  have h : (2 : Int) ^ 8 ≤ 2 ^ K.data_type_bits :=
    pow_le_pow_right₀ (by norm_num) K.data_type_bits_ge
  simpa using h

theorem to_data_type_of_lt (K : Header) (x : Int) (h0 : 0 ≤ x) (h : x < 256) :
    to_data_type K x = x.toNat := by
  unfold to_data_type
  rw [Int.emod_eq_of_lt h0 (lt_of_lt_of_le h (two_pow_data_type_bits_ge K))]

theorem wrap_int_of_bounds (x : Int) (h0 : -2147483648 ≤ x) (h : x < 2147483648) :
    wrap_int x = x := by
  unfold wrap_int; omega

theorem tdiv_of_nonneg (a b : Int) (ha : 0 ≤ a) (hb : 0 ≤ b) : Int.tdiv a b = a / b :=
  Int.tdiv_eq_ediv ha hb

theorem int_to_data_type_natCast (K : Header) (n : Nat) (h : n < 256) :
    to_data_type K (n : Int) = n := by
  rw [to_data_type_of_lt K n (by omega) (by omega)]; simp

/-- One truncating quotient of the bracket chain, when nothing overflows and the
quotient fits a byte. -/
theorem gain_quot (K : Header) (g d : Nat) (hd : 0 < d) (hg : g * 256 < 2147483648)
    (hq : g * 256 / d < 256) :
    to_data_type K (Int.tdiv (wrap_int ((g : Int) * 256)) (d : Int)) = g * 256 / d := by
  rw [wrap_int_of_bounds _ (by omega) (by omega), tdiv_of_nonneg _ _ (by omega) (by omega)]
  have : ((g : Int) * 256 / (d : Int)) = ((g * 256 / d : Nat) : Int) := by
    push_cast; rfl
  rw [this, int_to_data_type_natCast K _ hq]

/-- The doubled quotient of the top bracket. -/
theorem gain_quot_halved (K : Header) (g d : Nat) (hd : 0 < d) (hg : g * 256 < 2147483648)
    (hq : g * 256 / d / 2 < 256) :
    to_data_type K (Int.tdiv (Int.tdiv (wrap_int ((g : Int) * 256)) (d : Int)) 2)
      = g * 256 / d / 2 := by
  have h1 : ((g : Int) * 256 / (d : Int)) = ((g * 256 / d : Nat) : Int) := by
    push_cast; rfl
  rw [wrap_int_of_bounds _ (by omega) (by omega),
    tdiv_of_nonneg ((g : Int) * 256) (d : Int) (by omega) (by omega), h1,
    tdiv_of_nonneg _ _ (Int.ofNat_nonneg _) (by norm_num)]
  have h2 : (((g * 256 / d : Nat) : Int) / 2) = ((g * 256 / d / 2 : Nat) : Int) := by
    push_cast; rfl
  rw [h2, int_to_data_type_natCast K _ hq]

/-! ## The nine gain brackets -/

theorem sensor_s_gain_code_b0 (K : Header) (g : Nat) (h : g < 256) :
    sensor_s_gain_code K g = ⟨0x00, 0x00, g⟩ := by
  have e := int_to_data_type_natCast K g h
  have a0 := int_to_data_type_natCast K 0 (by norm_num)
  simp only [Nat.cast_zero] at a0
  unfold sensor_s_gain_code
  rw [if_pos (by omega), e, a0]

theorem sensor_s_gain_code_b1 (K : Header) (g : Nat) (h1 : 256 ≤ g) (h2 : g < 326) :
    sensor_s_gain_code K g = ⟨0x01, 0x00, g * 256 / 512⟩ := by
  have e := gain_quot K g 512 (by norm_num) (by omega) (by omega)
  have a0 := int_to_data_type_natCast K 0 (by norm_num)
  have a1 := int_to_data_type_natCast K 0x01 (by norm_num)
  simp only [Nat.cast_ofNat, Nat.cast_zero, Nat.cast_one] at e a0 a1
  unfold sensor_s_gain_code
  have above : ∀ c : Int, c ≤ (g : Int) → ¬ ((g : Int) < c) := fun c hc => not_lt.mpr hc
  rw [if_neg (above 256 (by omega)),
    if_pos (by omega), e, a0, a1]

theorem sensor_s_gain_code_b2 (K : Header) (g : Nat) (h1 : 326 ≤ g) (h2 : g < 653) :
    sensor_s_gain_code K g = ⟨0x40, 0x00, g * 256 / 653⟩ := by
  have e := gain_quot K g 653 (by norm_num) (by omega) (by omega)
  have a0 := int_to_data_type_natCast K 0 (by norm_num)
  have a1 := int_to_data_type_natCast K 0x40 (by norm_num)
  simp only [Nat.cast_ofNat, Nat.cast_zero, Nat.cast_one] at e a0 a1
  unfold sensor_s_gain_code
  have above : ∀ c : Int, c ≤ (g : Int) → ¬ ((g : Int) < c) := fun c hc => not_lt.mpr hc
  rw [if_neg (above 256 (by omega)), if_neg (above 326 (by omega)),
    if_pos (by omega), e, a0, a1]

theorem sensor_s_gain_code_b3 (K : Header) (g : Nat) (h1 : 653 ≤ g) (h2 : g < 1306) :
    sensor_s_gain_code K g = ⟨0x48, 0x00, g * 256 / 1306⟩ := by
  have e := gain_quot K g 1306 (by norm_num) (by omega) (by omega)
  have a0 := int_to_data_type_natCast K 0 (by norm_num)
  have a1 := int_to_data_type_natCast K 0x48 (by norm_num)
  simp only [Nat.cast_ofNat, Nat.cast_zero, Nat.cast_one] at e a0 a1
  unfold sensor_s_gain_code
  have above : ∀ c : Int, c ≤ (g : Int) → ¬ ((g : Int) < c) := fun c hc => not_lt.mpr hc
  rw [if_neg (above 256 (by omega)), if_neg (above 326 (by omega)), if_neg (above 653 (by omega)),
    if_pos (by omega), e, a0, a1]

theorem sensor_s_gain_code_b4 (K : Header) (g : Nat) (h1 : 1306 ≤ g) (h2 : g < 2611) :
    sensor_s_gain_code K g = ⟨0x49, 0x00, g * 256 / 2661⟩ := by
  have e := gain_quot K g 2661 (by norm_num) (by omega) (by omega)
  have a0 := int_to_data_type_natCast K 0 (by norm_num)
  have a1 := int_to_data_type_natCast K 0x49 (by norm_num)
  simp only [Nat.cast_ofNat, Nat.cast_zero, Nat.cast_one] at e a0 a1
  unfold sensor_s_gain_code
  have above : ∀ c : Int, c ≤ (g : Int) → ¬ ((g : Int) < c) := fun c hc => not_lt.mpr hc
  rw [if_neg (above 256 (by omega)), if_neg (above 326 (by omega)), if_neg (above 653 (by omega)), if_neg (above 1306 (by omega)),
    if_pos (by omega), e, a0, a1]

theorem sensor_s_gain_code_b5 (K : Header) (g : Nat) (h1 : 2611 ≤ g) (h2 : g < 5222) :
    sensor_s_gain_code K g = ⟨0x4B, 0x00, g * 256 / 5222⟩ := by
  have e := gain_quot K g 5222 (by norm_num) (by omega) (by omega)
  have a0 := int_to_data_type_natCast K 0 (by norm_num)
  have a1 := int_to_data_type_natCast K 0x4B (by norm_num)
  simp only [Nat.cast_ofNat, Nat.cast_zero, Nat.cast_one] at e a0 a1
  unfold sensor_s_gain_code
  have above : ∀ c : Int, c ≤ (g : Int) → ¬ ((g : Int) < c) := fun c hc => not_lt.mpr hc
  rw [if_neg (above 256 (by omega)), if_neg (above 326 (by omega)), if_neg (above 653 (by omega)), if_neg (above 1306 (by omega)), if_neg (above 2611 (by omega)),
    if_pos (by omega), e, a0, a1]

theorem sensor_s_gain_code_b6 (K : Header) (g : Nat) (h1 : 5222 ≤ g) (h2 : g < 10445) :
    sensor_s_gain_code K g = ⟨0x4F, 0x00, g * 256 / 10445⟩ := by
  have e := gain_quot K g 10445 (by norm_num) (by omega) (by omega)
  have a0 := int_to_data_type_natCast K 0 (by norm_num)
  have a1 := int_to_data_type_natCast K 0x4F (by norm_num)
  simp only [Nat.cast_ofNat, Nat.cast_zero, Nat.cast_one] at e a0 a1
  unfold sensor_s_gain_code
  have above : ∀ c : Int, c ≤ (g : Int) → ¬ ((g : Int) < c) := fun c hc => not_lt.mpr hc
  rw [if_neg (above 256 (by omega)), if_neg (above 326 (by omega)), if_neg (above 653 (by omega)), if_neg (above 1306 (by omega)), if_neg (above 2611 (by omega)), if_neg (above 5222 (by omega)),
    if_pos (by omega), e, a0, a1]

theorem sensor_s_gain_code_b7 (K : Header) (g : Nat) (h1 : 10445 ≤ g) (h2 : g < 20890) :
    sensor_s_gain_code K g = ⟨0x5F, 0x00, g * 256 / 20890⟩ := by
  have e := gain_quot K g 20890 (by norm_num) (by omega) (by omega)
  have a0 := int_to_data_type_natCast K 0 (by norm_num)
  have a1 := int_to_data_type_natCast K 0x5F (by norm_num)
  simp only [Nat.cast_ofNat, Nat.cast_zero, Nat.cast_one] at e a0 a1
  unfold sensor_s_gain_code
  have above : ∀ c : Int, c ≤ (g : Int) → ¬ ((g : Int) < c) := fun c hc => not_lt.mpr hc
  rw [if_neg (above 256 (by omega)), if_neg (above 326 (by omega)), if_neg (above 653 (by omega)), if_neg (above 1306 (by omega)), if_neg (above 2611 (by omega)), if_neg (above 5222 (by omega)), if_neg (above 10445 (by omega)),
    if_pos (by omega), e, a0, a1]

theorem sensor_s_gain_code_b8 (K : Header) (g : Nat) (h1 : 20890 ≤ g) (h2 : g ≤ 41728) :
    sensor_s_gain_code K g = ⟨0x5F, 0x01, g * 256 / 20890 / 2⟩ := by
  have e := gain_quot_halved K g 20890 (by norm_num) (by omega) (by omega)
  have a0 := int_to_data_type_natCast K 1 (by norm_num)
  have a1 := int_to_data_type_natCast K 0x5F (by norm_num)
  simp only [Nat.cast_ofNat, Nat.cast_one] at e a0 a1
  unfold sensor_s_gain_code
  have above : ∀ c : Int, c ≤ (g : Int) → ¬ ((g : Int) < c) := fun c hc => not_lt.mpr hc
  rw [if_neg (above 256 (by omega)), if_neg (above 326 (by omega)), if_neg (above 653 (by omega)), if_neg (above 1306 (by omega)), if_neg (above 2611 (by omega)), if_neg (above 5222 (by omega)), if_neg (above 10445 (by omega)), if_neg (above 20890 (by omega)),
    e, a0, a1]

/-! ## Combined exposure / gain update: the concrete scenario -/

/-- C1 (as the code behaves): in non-HDR mode `sensor_s_exp_gain` with lines = 10000 and
gain = 4000 returns 0 and issues exactly six register writes: exposure low 0x20 to
0x3e02, mid 0x4e to 0x3e01, high 0x00 to 0x3e00, then for the scaled gain
4000 << 3 = 32000 the analog code 0x5F to 0x3e09, digital-low 196
(= 32000 * 256 / 20890 / 2) to 0x3e07 and extra digital-high 1 to 0x3e06. -/
theorem C1_exp_gain_scenario (K : Header) (bus : Bus) (w : World)
    (h : w.info.isp_wdr_mode ≠ K.ISP_DOL_WDR_MODE) :
    (sensor_s_exp_gain K bus w 10000 4000).1 = 0 ∧
    (sensor_s_exp_gain K bus w 10000 4000).2.trace =
      w.trace ++ [Action.write 0x3e02 0x20, Action.write 0x3e01 0x4e,
        Action.write 0x3e00 0x00, Action.write 0x3e09 0x5F, Action.write 0x3e07 196,
        Action.write 0x3e06 1] ∧
    wrap_int (4000 * 8) = 32000 ∧
    sensor_s_gain_code K 32000 = ⟨0x5F, 1, 196⟩ ∧
    (32000 * 256 / 20890 / 2 : Nat) = 196 := by
  refine ⟨rfl, ?_, by decide, ?_, by decide⟩
  · simp [sensor_s_exp_gain, sensor_s_exp, sensor_s_gain, sensor_s_gain_code, sensor_write,
      World.emit, h, wrap_int, to_uint, to_uchar, shl_uint, to_data_type_of_lt,
      tdiv_of_nonneg]
    decide
  · simp [sensor_s_gain_code, to_data_type_of_lt, tdiv_of_nonneg, wrap_int]

/-- C1 witness: the scenario on a freshly probed non-HDR instance. -/
theorem C1_exp_gain_scenario_witness :
    (fresh_world 0).info.isp_wdr_mode ≠ sample_header.ISP_DOL_WDR_MODE ∧
    (sensor_s_exp_gain sample_header ok_bus (fresh_world 0) 10000 4000).2.trace =
      (fresh_world 0).trace ++ [Action.write 0x3e02 0x20, Action.write 0x3e01 0x4e,
        Action.write 0x3e00 0x00, Action.write 0x3e09 0x5F, Action.write 0x3e07 196,
        Action.write 0x3e06 1] :=
  ⟨by decide, (C1_exp_gain_scenario sample_header ok_bus (fresh_world 0) (by decide)).2.1⟩

/-- C1 counterexample: on a freshly probed non-HDR instance the call with lines = 10000,
gain = 4000 leaves 196 in the digital-low register 0x3e07, so the four values of the
scenario as stated (exposure-high 0x00, analog 0x5F, digital-high 1, digital-low 195)
are not what is written. -/
theorem C1_digital_low_not_195 :
    last_written 0x3e07
        (sensor_s_exp_gain sample_header ok_bus (fresh_world 0) 10000 4000).2.trace
      = some 196 ∧
    ¬ (last_written 0x3e00
          (sensor_s_exp_gain sample_header ok_bus (fresh_world 0) 10000 4000).2.trace
        = some 0x00 ∧
      last_written 0x3e09
          (sensor_s_exp_gain sample_header ok_bus (fresh_world 0) 10000 4000).2.trace
        = some 0x5F ∧
      last_written 0x3e06
          (sensor_s_exp_gain sample_header ok_bus (fresh_world 0) 10000 4000).2.trace
        = some 1 ∧
      last_written 0x3e07
          (sensor_s_exp_gain sample_header ok_bus (fresh_world 0) 10000 4000).2.trace
        = some 195) := by
  decide

/-! ## Register writes of `sensor_s_gain` -/

theorem sensor_s_gain_trace_normal (K : Header) (bus : Bus) (w : World) (gain_val : Int)
    (h : w.info.isp_wdr_mode ≠ K.ISP_DOL_WDR_MODE) :
    (sensor_s_gain K bus w gain_val).2.trace =
      w.trace ++
        [Action.write 0x3e09 (to_uchar (sensor_s_gain_code K (wrap_int (gain_val * 8))).gainana),
         Action.write 0x3e07
           (to_uchar (sensor_s_gain_code K (wrap_int (gain_val * 8))).gaindiglow),
         Action.write 0x3e06
           (to_uchar (sensor_s_gain_code K (wrap_int (gain_val * 8))).gaindighigh)] := by
  simp [sensor_s_gain, sensor_write, World.emit, h]

theorem sensor_s_gain_trace_hdr (K : Header) (bus : Bus) (w : World) (gain_val : Int)
    (h : w.info.isp_wdr_mode = K.ISP_DOL_WDR_MODE) :
    (sensor_s_gain K bus w gain_val).2.trace =
      w.trace ++
        [Action.write 0x3e13 (to_uchar (sensor_s_gain_code K (wrap_int (gain_val * 8))).gainana),
         Action.write 0x3e11
           (to_uchar (sensor_s_gain_code K (wrap_int (gain_val * 8))).gaindiglow),
         Action.write 0x3e10
           (to_uchar (sensor_s_gain_code K (wrap_int (gain_val * 8))).gaindighigh),
         Action.write 0x3e09 (to_uchar (sensor_s_gain_code K (wrap_int (gain_val * 8))).gainana),
         Action.write 0x3e07
           (to_uchar (sensor_s_gain_code K (wrap_int (gain_val * 8))).gaindiglow),
         Action.write 0x3e06
           (to_uchar (sensor_s_gain_code K (wrap_int (gain_val * 8))).gaindighigh)] := by
  simp [sensor_s_gain, sensor_write, World.emit, h]

/-- The scaled gain of a non-negative request that does not overflow. -/
theorem scaled_gain_natCast (r : Nat) (h : r * 8 < 2147483648) :
    wrap_int ((r : Int) * 8) = ((r * 8 : Nat) : Int) := by
  rw [wrap_int_of_bounds _ (by omega) (by omega)]; push_cast; rfl

/-! ## Effective gain across the 1306 breakpoint -/

/-- C2 (evaluation at the failing input): for the gain requests 163 and 164 (scaled
gains 1304 and 1312, either side of the breakpoint 1306) the encoder yields
(0x48, 0, 255) and (0x49, 0, 126); with the analog factors 5.1 and 10.2 of the code
comments the effective gains are 2601/256 and 3213/320, so the effective gain of the
larger request is strictly smaller: the curve drops at this breakpoint, so the effective
gain is not monotone over the requests 16..5216. In non-HDR mode these are the bytes
written to 0x3e09, 0x3e07, 0x3e06. -/
theorem C2_effective_gain_drops_at_1306 (K : Header) (bus : Bus) (w : World) :
    sensor_s_gain_code K (wrap_int (163 * 8)) = ⟨0x48, 0x00, 255⟩ ∧
    sensor_s_gain_code K (wrap_int (164 * 8)) = ⟨0x49, 0x00, 126⟩ ∧
    effective_gain (sensor_s_gain_code K (wrap_int (163 * 8))) = 2601 / 256 ∧
    effective_gain (sensor_s_gain_code K (wrap_int (164 * 8))) = 3213 / 320 ∧
    effective_gain (sensor_s_gain_code K (wrap_int (164 * 8)))
      < effective_gain (sensor_s_gain_code K (wrap_int (163 * 8))) ∧
    ¬ (∀ a b : Int, 16 ≤ a → a ≤ b → b ≤ 5216 →
        effective_gain (sensor_s_gain_code K (wrap_int (a * 8)))
          ≤ effective_gain (sensor_s_gain_code K (wrap_int (b * 8)))) ∧
    (w.info.isp_wdr_mode ≠ K.ISP_DOL_WDR_MODE →
      (sensor_s_gain K bus w 163).2.trace =
        w.trace ++ [Action.write 0x3e09 0x48, Action.write 0x3e07 255,
          Action.write 0x3e06 0x00] ∧
      (sensor_s_gain K bus w 164).2.trace =
        w.trace ++ [Action.write 0x3e09 0x49, Action.write 0x3e07 126,
          Action.write 0x3e06 0x00]) := by
  have e163 : sensor_s_gain_code K (wrap_int (163 * 8)) = ⟨0x48, 0x00, 255⟩ := by
    have := sensor_s_gain_code_b3 K 1304 (by norm_num) (by norm_num)
    simpa [wrap_int] using this
  have e164 : sensor_s_gain_code K (wrap_int (164 * 8)) = ⟨0x49, 0x00, 126⟩ := by
    have := sensor_s_gain_code_b4 K 1312 (by norm_num) (by norm_num)
    simpa [wrap_int] using this
  have drop : effective_gain (sensor_s_gain_code K (wrap_int (164 * 8)))
      < effective_gain (sensor_s_gain_code K (wrap_int (163 * 8))) := by
    rw [e163, e164]; norm_num [effective_gain, analog_gain_value, to_uchar]
  refine ⟨e163, e164, ?_, ?_, drop, ?_, ?_⟩
  · rw [e163]; norm_num [effective_gain, analog_gain_value, to_uchar]
  · rw [e164]; norm_num [effective_gain, analog_gain_value, to_uchar]
  · intro mono
    exact absurd (mono 163 164 (by norm_num) (by norm_num) (by norm_num)) (not_le.mpr drop)
  · intro h
    rw [sensor_s_gain_trace_normal K bus w 163 h, sensor_s_gain_trace_normal K bus w 164 h,
      e163, e164]
    simp [to_uchar]

/-- C2 witness: the drop, and the bytes written, on a freshly probed non-HDR instance. -/
theorem C2_effective_gain_drops_at_1306_witness :
    (fresh_world 0).info.isp_wdr_mode ≠ sample_header.ISP_DOL_WDR_MODE ∧
    effective_gain (sensor_s_gain_code sample_header (wrap_int (164 * 8)))
      < effective_gain (sensor_s_gain_code sample_header (wrap_int (163 * 8))) ∧
    (sensor_s_gain sample_header ok_bus (fresh_world 0) 164).2.trace =
      (fresh_world 0).trace ++ [Action.write 0x3e09 0x49, Action.write 0x3e07 126,
        Action.write 0x3e06 0x00] :=
  ⟨by decide,
   (C2_effective_gain_drops_at_1306 sample_header ok_bus (fresh_world 0)).2.2.2.2.1,
   ((C2_effective_gain_drops_at_1306 sample_header ok_bus (fresh_world 0)).2.2.2.2.2.2
      (by decide)).2⟩

/-! ## Identity region and top bracket of the gain encoder -/

/-- C3: for every scaled gain `g` with 0 <= g < 256 the bracket chain yields analog code
0x00, digital-high 0x00 and digital-low = g, the byte cast leaves g unchanged, and for
every gain request whose scaled value `gain_val << 3` is g, `sensor_s_gain` writes
exactly these bytes to 0x3e09, 0x3e07 and 0x3e06 (in HDR mode preceded by the same
bytes to 0x3e13, 0x3e11, 0x3e10). -/
theorem C3_gain_identity_passthrough (K : Header) (bus : Bus) (w : World) (g : Nat)
    (hg : g < 256) :
    sensor_s_gain_code K g = ⟨0x00, 0x00, g⟩ ∧
    to_uchar g = g ∧
    ∀ gain_val : Int, wrap_int (gain_val * 8) = g →
      (w.info.isp_wdr_mode ≠ K.ISP_DOL_WDR_MODE →
        (sensor_s_gain K bus w gain_val).2.trace =
          w.trace ++ [Action.write 0x3e09 0x00, Action.write 0x3e07 g,
            Action.write 0x3e06 0x00]) ∧
      (w.info.isp_wdr_mode = K.ISP_DOL_WDR_MODE →
        (sensor_s_gain K bus w gain_val).2.trace =
          w.trace ++ [Action.write 0x3e13 0x00, Action.write 0x3e11 g,
            Action.write 0x3e10 0x00, Action.write 0x3e09 0x00, Action.write 0x3e07 g,
            Action.write 0x3e06 0x00]) := by
  have hb : to_uchar g = g := Nat.mod_eq_of_lt hg
  refine ⟨sensor_s_gain_code_b0 K g hg, hb, ?_⟩
  intro gain_val hv
  constructor
  · intro h
    rw [sensor_s_gain_trace_normal K bus w gain_val h, hv, sensor_s_gain_code_b0 K g hg]
    simp [to_uchar, Nat.mod_eq_of_lt hg]
  · intro h
    rw [sensor_s_gain_trace_hdr K bus w gain_val h, hv, sensor_s_gain_code_b0 K g hg]
    simp [to_uchar, Nat.mod_eq_of_lt hg]

/-- C3 witness: the minimum request 16 (scaled gain 128) on a fresh non-HDR instance. -/
theorem C3_gain_identity_passthrough_witness :
    (128 : Nat) < 256 ∧ wrap_int (16 * 8) = ((128 : Nat) : Int) ∧
    (fresh_world 0).info.isp_wdr_mode ≠ sample_header.ISP_DOL_WDR_MODE ∧
    (sensor_s_gain sample_header ok_bus (fresh_world 0) 16).2.trace =
      (fresh_world 0).trace ++ [Action.write 0x3e09 0x00, Action.write 0x3e07 128,
        Action.write 0x3e06 0x00] :=
  ⟨by decide, by decide, by decide,
   ((C3_gain_identity_passthrough sample_header ok_bus (fresh_world 0) 128 (by decide)).2.2
      16 (by decide)).1 (by decide)⟩

/-- C4: for every scaled gain `g` with 20890 <= g <= 41728 (the scaled `gain_max`) the
bracket chain yields analog code 0x5F, extra digital-high 1 and digital-low
(g * 256 / 20890) / 2 (truncating), which fits a byte, and `sensor_s_gain` writes these
bytes for every request whose scaled value is g; in each lower bracket the digital-high
is 0 and the digital-low is g * 256 / reference with no halving, the references being
256 (identity), 512, 653, 1306, 2661, 5222, 10445, 20890. -/
theorem C4_gain_brackets (K : Header) (bus : Bus) (w : World) (g : Nat) :
    (20890 ≤ g → g ≤ 41728 →
      sensor_s_gain_code K g = ⟨0x5F, 0x01, g * 256 / 20890 / 2⟩ ∧
      g * 256 / 20890 / 2 ≤ 255 ∧
      ∀ gain_val : Int, wrap_int (gain_val * 8) = g →
        (w.info.isp_wdr_mode ≠ K.ISP_DOL_WDR_MODE →
          (sensor_s_gain K bus w gain_val).2.trace =
            w.trace ++ [Action.write 0x3e09 0x5F, Action.write 0x3e07 (g * 256 / 20890 / 2),
              Action.write 0x3e06 0x01]) ∧
        (w.info.isp_wdr_mode = K.ISP_DOL_WDR_MODE →
          (sensor_s_gain K bus w gain_val).2.trace =
            w.trace ++ [Action.write 0x3e13 0x5F, Action.write 0x3e11 (g * 256 / 20890 / 2),
              Action.write 0x3e10 0x01, Action.write 0x3e09 0x5F,
              Action.write 0x3e07 (g * 256 / 20890 / 2), Action.write 0x3e06 0x01])) ∧
    (g < 256 →
      (sensor_s_gain_code K g).gaindighigh = 0 ∧
      (sensor_s_gain_code K g).gaindiglow = g * 256 / 256) ∧
    (256 ≤ g → g < 326 →
      (sensor_s_gain_code K g).gaindighigh = 0 ∧
      (sensor_s_gain_code K g).gaindiglow = g * 256 / 512) ∧
    (326 ≤ g → g < 653 →
      (sensor_s_gain_code K g).gaindighigh = 0 ∧
      (sensor_s_gain_code K g).gaindiglow = g * 256 / 653) ∧
    (653 ≤ g → g < 1306 →
      (sensor_s_gain_code K g).gaindighigh = 0 ∧
      (sensor_s_gain_code K g).gaindiglow = g * 256 / 1306) ∧
    (1306 ≤ g → g < 2611 →
      (sensor_s_gain_code K g).gaindighigh = 0 ∧
      (sensor_s_gain_code K g).gaindiglow = g * 256 / 2661) ∧
    (2611 ≤ g → g < 5222 →
      (sensor_s_gain_code K g).gaindighigh = 0 ∧
      (sensor_s_gain_code K g).gaindiglow = g * 256 / 5222) ∧
    (5222 ≤ g → g < 10445 →
      (sensor_s_gain_code K g).gaindighigh = 0 ∧
      (sensor_s_gain_code K g).gaindiglow = g * 256 / 10445) ∧
    (10445 ≤ g → g < 20890 →
      (sensor_s_gain_code K g).gaindighigh = 0 ∧
      (sensor_s_gain_code K g).gaindiglow = g * 256 / 20890) := by
  refine ⟨?_, ?_, ?_, ?_, ?_, ?_, ?_, ?_, ?_⟩
  · intro h1 h2
    have hq : g * 256 / 20890 / 2 ≤ 255 := by omega
    refine ⟨sensor_s_gain_code_b8 K g h1 h2, hq, ?_⟩
    intro gain_val hv
    constructor
    · intro h
      rw [sensor_s_gain_trace_normal K bus w gain_val h, hv, sensor_s_gain_code_b8 K g h1 h2]
      simp [to_uchar, Nat.mod_eq_of_lt (Nat.lt_succ_of_le hq)]
    · intro h
      rw [sensor_s_gain_trace_hdr K bus w gain_val h, hv, sensor_s_gain_code_b8 K g h1 h2]
      simp [to_uchar, Nat.mod_eq_of_lt (Nat.lt_succ_of_le hq)]
  · intro h; rw [sensor_s_gain_code_b0 K g h]; simp
  · intro h1 h2; rw [sensor_s_gain_code_b1 K g h1 h2]; simp
  · intro h1 h2; rw [sensor_s_gain_code_b2 K g h1 h2]; simp
  · intro h1 h2; rw [sensor_s_gain_code_b3 K g h1 h2]; simp
  · intro h1 h2; rw [sensor_s_gain_code_b4 K g h1 h2]; simp
  · intro h1 h2; rw [sensor_s_gain_code_b5 K g h1 h2]; simp
  · intro h1 h2; rw [sensor_s_gain_code_b6 K g h1 h2]; simp
  · intro h1 h2; rw [sensor_s_gain_code_b7 K g h1 h2]; simp

/-- C4 witness: the request 4000 (scaled gain 32000, top bracket) on a fresh non-HDR
instance, and the scaled gain 1312 in the bracket below 2611. -/
theorem C4_gain_brackets_witness :
    (20890 ≤ 32000 ∧ 32000 ≤ 41728) ∧
    sensor_s_gain_code sample_header ((32000 : Nat) : Int)
      = ⟨0x5F, 0x01, 32000 * 256 / 20890 / 2⟩ ∧
    (sensor_s_gain sample_header ok_bus (fresh_world 0) 4000).2.trace =
      (fresh_world 0).trace ++ [Action.write 0x3e09 0x5F,
        Action.write 0x3e07 (32000 * 256 / 20890 / 2), Action.write 0x3e06 0x01] :=
  ⟨by decide,
   ((C4_gain_brackets sample_header ok_bus (fresh_world 0) 32000).1
      (by decide) (by decide)).1,
   ((((C4_gain_brackets sample_header ok_bus (fresh_world 0) 32000).1
      (by decide) (by decide)).2.2 4000 (by decide)).1 (by decide))⟩

/-! ## Bit fields of the exposure registers -/

theorem and_0x0f (x : Nat) : 0x0f &&& x = x % 16 := by
  rw [Nat.and_comm]; exact Nat.and_pow_two_sub_one_eq_mod x 4

theorem and_0xff (x : Nat) : 0xff &&& x = x % 256 := by
  rw [Nat.and_comm]; exact Nat.and_pow_two_sub_one_eq_mod x 8

set_option maxRecDepth 100000 in
theorem and_0xf0_of_lt : ∀ y < 256, 0xf0 &&& y = y / 16 * 16 := by decide

theorem and_0xf0 (x : Nat) : 0xf0 &&& x = x % 256 / 16 * 16 := by
  have h : (0xf0 : Nat) = 0xf0 &&& 0xff := by decide
  rw [h, Nat.and_assoc, and_0xff]
  exact and_0xf0_of_lt _ (Nat.mod_lt _ (by norm_num))

/-- The low exposure byte holds bits 3-6 of the exposure in its top nibble. -/
theorem exp_low_eq (e : Nat) : to_uchar (0xf0 &&& shl_uint e 1) = e / 8 % 16 * 16 := by
  rw [and_0xf0]; unfold to_uchar shl_uint; rw [Nat.shiftLeft_eq]; omega

theorem exp_low_bits (e : Nat) : (e <<< 1) &&& 0xF0 = e / 8 % 16 * 16 := by
  rw [Nat.and_comm, and_0xf0, Nat.shiftLeft_eq]; omega

/-- The middle exposure byte holds bits 7-14. -/
theorem exp_mid_eq (e : Nat) : to_uchar (0xff &&& (e >>> 7)) = e / 2 ^ 7 % 2 ^ 8 := by
  rw [and_0xff]; unfold to_uchar; rw [Nat.shiftRight_eq_div_pow]; omega

/-- The high exposure byte holds bits 15-18. -/
theorem exp_high_eq (e : Nat) : to_uchar (0x0f &&& (e >>> 15)) = e / 2 ^ 15 % 2 ^ 4 := by
  rw [and_0x0f]; unfold to_uchar; rw [Nat.shiftRight_eq_div_pow]; omega

theorem exp_fields_reconstruct (e : Nat) (h : e < 2 ^ 19) :
    ((e / 2 ^ 15 % 2 ^ 4) <<< 15) ||| ((e / 2 ^ 7 % 2 ^ 8) <<< 7)
      ||| (((e <<< 1) &&& 0xF0) >>> 1) = e / 8 * 8 := by
  rw [exp_low_bits, Nat.or_assoc, Nat.shiftLeft_eq, Nat.shiftLeft_eq, Nat.shiftRight_eq_div_pow,
    Nat.mul_comm _ (2 ^ 7), Nat.mul_comm _ (2 ^ 15),
    ← Nat.mul_add_lt_is_or (by omega) (e / 2 ^ 7 % 2 ^ 8),
    ← Nat.mul_add_lt_is_or (by omega) (e / 2 ^ 15 % 2 ^ 4)]
  omega

/-! ## Register writes of `sensor_s_exp` -/

/-- Single-exposure branch of `sensor_s_exp`, on the clamped value. -/
theorem sensor_s_exp_normal (K : Header) (bus : Bus) (w : World) (e : Nat)
    (h : w.info.isp_wdr_mode ≠ K.ISP_DOL_WDR_MODE) :
    sensor_s_exp K bus w e =
      (0, { info := { w.info with exp := if e < 16 then 16 else e },
            sc530ai_sensor_vts := w.sc530ai_sensor_vts,
            trace := w.trace ++
              [Action.write 0x3e02 ((if e < 16 then 16 else e) / 8 % 16 * 16),
               Action.write 0x3e01 ((if e < 16 then 16 else e) / 2 ^ 7 % 2 ^ 8),
               Action.write 0x3e00 ((if e < 16 then 16 else e) / 2 ^ 15 % 2 ^ 4)] }) := by
  unfold sensor_s_exp
  rw [if_neg h]
  simp only [sensor_write, World.emit, exp_low_eq, exp_mid_eq, exp_high_eq, List.append_assoc,
    List.singleton_append, List.cons_append, List.nil_append]

/-- Dual-exposure branch of `sensor_s_exp`, on the clamped value. -/
theorem sensor_s_exp_hdr (K : Header) (bus : Bus) (w : World) (e : Nat)
    (h : w.info.isp_wdr_mode = K.ISP_DOL_WDR_MODE) :
    sensor_s_exp K bus w e =
      (0, { info := { w.info with exp := (if e < 512 then 512 else e) / 32 },
            sc530ai_sensor_vts := w.sc530ai_sensor_vts,
            trace := w.trace ++
              [Action.write 0x3e02 ((if e < 512 then 512 else e) / 8 % 16 * 16),
               Action.write 0x3e01 ((if e < 512 then 512 else e) / 2 ^ 7 % 2 ^ 8),
               Action.write 0x3e00 ((if e < 512 then 512 else e) / 2 ^ 15 % 2 ^ 4),
               Action.write 0x3e05 ((if e < 512 then 512 else e) / 32 / 8 % 16 * 16),
               Action.write 0x3e04 ((if e < 512 then 512 else e) / 32 / 2 ^ 7 % 2 ^ 8)] }) := by
  unfold sensor_s_exp
  rw [if_pos h]
  simp only [sensor_write, World.emit, exp_low_eq, exp_mid_eq, exp_high_eq, List.append_assoc,
    List.singleton_append, List.cons_append, List.nil_append, HDR_RATIO]

/-! ## Exposure encoding -/

/-- C5: for every exposure e that needs no clamping (e >= 16 in single-exposure mode,
e >= 512 in HDR mode) `sensor_s_exp` writes low = (e << 1) & 0xF0 to 0x3e02,
mid = bits 7-14 of e to 0x3e01 and high = bits 15-18 of e (four bits, in both modes) to
0x3e00 (in HDR mode followed by the two short-exposure writes); and for every
e below 2^19 these three fields reconstruct e with its three lowest bits cleared:
(high << 15) | (mid << 7) | (low >> 1) = e / 8 * 8. -/
theorem C5_exposure_fields (K : Header) (bus : Bus) (w : World) (e : Nat) :
    (w.info.isp_wdr_mode ≠ K.ISP_DOL_WDR_MODE → 16 ≤ e →
      (sensor_s_exp K bus w e).2.trace =
        w.trace ++ [Action.write 0x3e02 ((e <<< 1) &&& 0xF0),
          Action.write 0x3e01 (e / 2 ^ 7 % 2 ^ 8),
          Action.write 0x3e00 (e / 2 ^ 15 % 2 ^ 4)]) ∧
    (w.info.isp_wdr_mode = K.ISP_DOL_WDR_MODE → 512 ≤ e →
      (sensor_s_exp K bus w e).2.trace =
        w.trace ++ [Action.write 0x3e02 ((e <<< 1) &&& 0xF0),
          Action.write 0x3e01 (e / 2 ^ 7 % 2 ^ 8),
          Action.write 0x3e00 (e / 2 ^ 15 % 2 ^ 4),
          Action.write 0x3e05 (((e / 32) <<< 1) &&& 0xF0),
          Action.write 0x3e04 (e / 32 / 2 ^ 7 % 2 ^ 8)]) ∧
    (e < 2 ^ 19 →
      ((e / 2 ^ 15 % 2 ^ 4) <<< 15) ||| ((e / 2 ^ 7 % 2 ^ 8) <<< 7)
        ||| (((e <<< 1) &&& 0xF0) >>> 1) = e / 8 * 8) := by
  refine ⟨?_, ?_, exp_fields_reconstruct e⟩
  · intro h he
    rw [sensor_s_exp_normal K bus w e h, if_neg (Nat.not_lt.mpr he), exp_low_bits]
  · intro h he
    rw [sensor_s_exp_hdr K bus w e h, if_neg (Nat.not_lt.mpr he), exp_low_bits, exp_low_bits]

/-- C5 witness: exposure 10000 on a fresh single-exposure instance. -/
theorem C5_exposure_fields_witness :
    (fresh_world 0).info.isp_wdr_mode ≠ sample_header.ISP_DOL_WDR_MODE ∧ 16 ≤ 10000 ∧
    10000 < 2 ^ 19 ∧
    (sensor_s_exp sample_header ok_bus (fresh_world 0) 10000).2.trace =
      (fresh_world 0).trace ++ [Action.write 0x3e02 ((10000 <<< 1) &&& 0xF0),
        Action.write 0x3e01 (10000 / 2 ^ 7 % 2 ^ 8),
        Action.write 0x3e00 (10000 / 2 ^ 15 % 2 ^ 4)] ∧
    ((10000 / 2 ^ 15 % 2 ^ 4) <<< 15) ||| ((10000 / 2 ^ 7 % 2 ^ 8) <<< 7)
      ||| (((10000 <<< 1) &&& 0xF0) >>> 1) = 10000 / 8 * 8 :=
  ⟨by decide, by decide, by decide,
   (C5_exposure_fields sample_header ok_bus (fresh_world 0) 10000).1 (by decide) (by decide),
   (C5_exposure_fields sample_header ok_bus (fresh_world 0) 10000).2.2 (by decide)⟩

/-- C6: in single-exposure mode every exposure input e < 16 makes `sensor_s_exp` return
the same result and leave the same state as input 16 (the writes 0x20, 0x00, 0x00 to
0x3e02, 0x3e01, 0x3e00 and stored exposure 16); in HDR mode every input e < 512 behaves
as input 512 (long fields 0x00, 0x04, 0x00, short fields 0x20, 0x00 to 0x3e05, 0x3e04,
stored exposure 512 / 32 = 16). -/
theorem C6_exposure_min_clamp (K : Header) (bus : Bus) (w : World) (e : Nat) :
    (w.info.isp_wdr_mode ≠ K.ISP_DOL_WDR_MODE → e < 16 →
      sensor_s_exp K bus w e = sensor_s_exp K bus w 16 ∧
      (sensor_s_exp K bus w e).2.trace =
        w.trace ++ [Action.write 0x3e02 0x20, Action.write 0x3e01 0x00,
          Action.write 0x3e00 0x00] ∧
      (sensor_s_exp K bus w e).2.info.exp = 16) ∧
    (w.info.isp_wdr_mode = K.ISP_DOL_WDR_MODE → e < 512 →
      sensor_s_exp K bus w e = sensor_s_exp K bus w 512 ∧
      (sensor_s_exp K bus w e).2.trace =
        w.trace ++ [Action.write 0x3e02 0x00, Action.write 0x3e01 0x04,
          Action.write 0x3e00 0x00, Action.write 0x3e05 0x20, Action.write 0x3e04 0x00] ∧
      (sensor_s_exp K bus w e).2.info.exp = 16) := by
  constructor
  · intro h he
    rw [sensor_s_exp_normal K bus w e h, sensor_s_exp_normal K bus w 16 h, if_pos he]
    simp
  · intro h he
    rw [sensor_s_exp_hdr K bus w e h, sensor_s_exp_hdr K bus w 512 h, if_pos he]
    simp

/-- C6 witness: input 3 on a fresh single-exposure instance and input 100 on a fresh HDR
instance. -/
theorem C6_exposure_min_clamp_witness :
    ((fresh_world 0).info.isp_wdr_mode ≠ sample_header.ISP_DOL_WDR_MODE ∧ 3 < 16 ∧
      sensor_s_exp sample_header ok_bus (fresh_world 0) 3
        = sensor_s_exp sample_header ok_bus (fresh_world 0) 16) ∧
    ((fresh_world 1).info.isp_wdr_mode = sample_header.ISP_DOL_WDR_MODE ∧ 100 < 512 ∧
      sensor_s_exp sample_header ok_bus (fresh_world 1) 100
        = sensor_s_exp sample_header ok_bus (fresh_world 1) 512) :=
  ⟨⟨by decide, by decide,
    ((C6_exposure_min_clamp sample_header ok_bus (fresh_world 0) 3).1
      (by decide) (by decide)).1⟩,
   ⟨by decide, by decide,
    ((C6_exposure_min_clamp sample_header ok_bus (fresh_world 1) 100).2
      (by decide) (by decide)).1⟩⟩

/-- C7: in HDR mode, for every long exposure L with 512 <= L <= 0xFFFFF, the bytes that
`sensor_s_exp` writes to 0x3e05 (low) and 0x3e04 (mid) are the low and mid fields of
short = L / 32, the stored exposure is L / 32, and they are the very bytes that
`sensor_s_exp` in single-exposure mode writes to 0x3e02 (low) and 0x3e01 (mid) when
called with L / 32 on its own (whose high byte is then 0). -/
theorem C7_hdr_short_exposure (K : Header) (bus : Bus) (w w1 : World) (L : Nat)
    (hw : w.info.isp_wdr_mode = K.ISP_DOL_WDR_MODE)
    (hw1 : w1.info.isp_wdr_mode ≠ K.ISP_DOL_WDR_MODE)
    (h1 : 512 ≤ L) (h2 : L ≤ 0xFFFFF) :
    (sensor_s_exp K bus w L).2.trace =
      w.trace ++ [Action.write 0x3e02 ((L <<< 1) &&& 0xF0),
        Action.write 0x3e01 (L / 2 ^ 7 % 2 ^ 8),
        Action.write 0x3e00 (L / 2 ^ 15 % 2 ^ 4),
        Action.write 0x3e05 (((L / 32) <<< 1) &&& 0xF0),
        Action.write 0x3e04 (L / 32 / 2 ^ 7 % 2 ^ 8)] ∧
    (sensor_s_exp K bus w L).2.info.exp = L / 32 ∧
    (sensor_s_exp K bus w1 (L / 32)).2.trace =
      w1.trace ++ [Action.write 0x3e02 (((L / 32) <<< 1) &&& 0xF0),
        Action.write 0x3e01 (L / 32 / 2 ^ 7 % 2 ^ 8),
        Action.write 0x3e00 0x00] := by
  have hs : ¬ (L / 32 < 16) := by omega
  have hh : L / 32 / 2 ^ 15 % 2 ^ 4 = 0 := by omega
  refine ⟨?_, ?_, ?_⟩
  · rw [sensor_s_exp_hdr K bus w L hw, if_neg (Nat.not_lt.mpr h1), exp_low_bits, exp_low_bits]
  · rw [sensor_s_exp_hdr K bus w L hw, if_neg (Nat.not_lt.mpr h1)]
  · rw [sensor_s_exp_normal K bus w1 (L / 32) hw1, if_neg hs, exp_low_bits, hh]

/-- C7 witness: long exposure 10000 (short 312) on fresh instances. -/
theorem C7_hdr_short_exposure_witness :
    (fresh_world 1).info.isp_wdr_mode = sample_header.ISP_DOL_WDR_MODE ∧
    (fresh_world 0).info.isp_wdr_mode ≠ sample_header.ISP_DOL_WDR_MODE ∧
    512 ≤ 10000 ∧ 10000 ≤ 0xFFFFF ∧
    (sensor_s_exp sample_header ok_bus (fresh_world 1) 10000).2.info.exp = 10000 / 32 ∧
    (sensor_s_exp sample_header ok_bus (fresh_world 0) (10000 / 32)).2.trace =
      (fresh_world 0).trace ++ [Action.write 0x3e02 (((10000 / 32) <<< 1) &&& 0xF0),
        Action.write 0x3e01 (10000 / 32 / 2 ^ 7 % 2 ^ 8),
        Action.write 0x3e00 0x00] :=
  ⟨by decide, by decide, by decide, by decide,
   (C7_hdr_short_exposure sample_header ok_bus (fresh_world 1) (fresh_world 0) 10000
      (by decide) (by decide) (by decide) (by decide)).2.1,
   (C7_hdr_short_exposure sample_header ok_bus (fresh_world 1) (fresh_world 0) 10000
      (by decide) (by decide) (by decide) (by decide)).2.2⟩

/-! ## Silent clamping in the combined update -/

theorem last_written_append_of_some (reg v : Nat) (a b : List Action)
    (h : last_written reg b = some v) : last_written reg (a ++ b) = some v := by
  induction a with
  | nil => simpa using h
  | cons x rest ih =>
    cases x <;> simp [last_written, ih]

theorem sensor_s_exp_mode (K : Header) (bus : Bus) (w : World) (e : Nat) :
    (sensor_s_exp K bus w e).2.info.isp_wdr_mode = w.info.isp_wdr_mode := by
  by_cases h : w.info.isp_wdr_mode = K.ISP_DOL_WDR_MODE
  · rw [sensor_s_exp_hdr K bus w e h]
  · rw [sensor_s_exp_normal K bus w e h]

/-- In either mode the trace of `sensor_s_gain` ends with the three long-exposure gain
writes. -/
theorem sensor_s_gain_trace_suffix (K : Header) (bus : Bus) (w : World) (gain_val : Int) :
    ∃ pre : List Action, (sensor_s_gain K bus w gain_val).2.trace =
      pre ++
        [Action.write 0x3e09 (to_uchar (sensor_s_gain_code K (wrap_int (gain_val * 8))).gainana),
         Action.write 0x3e07
           (to_uchar (sensor_s_gain_code K (wrap_int (gain_val * 8))).gaindiglow),
         Action.write 0x3e06
           (to_uchar (sensor_s_gain_code K (wrap_int (gain_val * 8))).gaindighigh)] := by
  by_cases h : w.info.isp_wdr_mode = K.ISP_DOL_WDR_MODE
  · refine ⟨w.trace ++
      [Action.write 0x3e13 (to_uchar (sensor_s_gain_code K (wrap_int (gain_val * 8))).gainana),
       Action.write 0x3e11
         (to_uchar (sensor_s_gain_code K (wrap_int (gain_val * 8))).gaindiglow),
       Action.write 0x3e10
         (to_uchar (sensor_s_gain_code K (wrap_int (gain_val * 8))).gaindighigh)], ?_⟩
    rw [sensor_s_gain_trace_hdr K bus w gain_val h]; simp
  · exact ⟨w.trace, sensor_s_gain_trace_normal K bus w gain_val h⟩

/-- C8: for all inputs (e, g) `sensor_s_exp_gain` returns 0 and yields exactly the
result (return value, register writes, stored exposure and gain) of the call with
(min(e, 0xFFFFF), max(g, 16)); the stored values are these two bounds-saturated
numbers; and every gain request g <= 16 is encoded as the minimum gain code
(analog 0x00, digital-high 0x00, digital-low 0x80), which is what registers 0x3e09,
0x3e06 and 0x3e07 hold after the call. -/
theorem C8_exp_gain_saturation (K : Header) (bus : Bus) (w : World) (e g : Int) :
    (sensor_s_exp_gain K bus w e g).1 = 0 ∧
    sensor_s_exp_gain K bus w e g = sensor_s_exp_gain K bus w (min e 0xFFFFF) (max g 16) ∧
    (sensor_s_exp_gain K bus w e g).2.info.exp = to_uint (min e 0xFFFFF) ∧
    (sensor_s_exp_gain K bus w e g).2.info.gain = to_uint (max g 16) ∧
    (g ≤ 16 →
      sensor_s_gain_code K (wrap_int (max g 16 * 8)) = ⟨0x00, 0x00, 0x80⟩ ∧
      last_written 0x3e09 (sensor_s_exp_gain K bus w e g).2.trace = some 0x00 ∧
      last_written 0x3e06 (sensor_s_exp_gain K bus w e g).2.trace = some 0x00 ∧
      last_written 0x3e07 (sensor_s_exp_gain K bus w e g).2.trace = some 0x80) := by
  have hg : (if g < 1 * 16 then (16 : Int) else g) = max g 16 := by
    split_ifs <;> omega
  have hg2 : (if max g 16 < 1 * 16 then (16 : Int) else max g 16) = max g 16 := by
    split_ifs <;> omega
  have he : (if e > 0xfffff then (0xfffff : Int) else e) = min e 0xFFFFF := by
    split_ifs <;> omega
  have he2 : (if min e 0xFFFFF > 0xfffff then (0xfffff : Int) else min e 0xFFFFF)
      = min e 0xFFFFF := by
    split_ifs <;> omega
  refine ⟨rfl, ?_, ?_, ?_, ?_⟩
  · simp only [sensor_s_exp_gain, hg, hg2, he, he2]
  · simp only [sensor_s_exp_gain, he]
  · simp only [sensor_s_exp_gain, hg]
  · intro hle
    have hm : max g 16 = 16 := by omega
    have hc : sensor_s_gain_code K (wrap_int (16 * 8)) = ⟨0x00, 0x00, 0x80⟩ := by
      have := sensor_s_gain_code_b0 K 128 (by norm_num)
      simpa [wrap_int] using this
    have ht : (sensor_s_exp_gain K bus w e g).2.trace
        = (sensor_s_gain K bus (sensor_s_exp K bus w (to_uint (min e 0xFFFFF))).2 16).2.trace := by
      simp only [sensor_s_exp_gain, hg, he, hm]
    obtain ⟨pre, hp⟩ := sensor_s_gain_trace_suffix K bus
      (sensor_s_exp K bus w (to_uint (min e 0xFFFFF))).2 16
    rw [hc] at hp
    rw [hm]
    refine ⟨hc, ?_, ?_, ?_⟩
    · rw [ht, hp]; exact last_written_append_of_some _ _ _ _ (by decide)
    · rw [ht, hp]; exact last_written_append_of_some _ _ _ _ (by decide)
    · rw [ht, hp]; exact last_written_append_of_some _ _ _ _ (by decide)

/-- C8 witness: exposure 2000000 (above 0xFFFFF) and gain 5 (below 16) on a fresh
single-exposure instance behave as (0xFFFFF, 16). -/
theorem C8_exp_gain_saturation_witness :
    (5 : Int) ≤ 16 ∧
    sensor_s_exp_gain sample_header ok_bus (fresh_world 0) 2000000 5
      = sensor_s_exp_gain sample_header ok_bus (fresh_world 0) (min 2000000 0xFFFFF)
          (max 5 16) ∧
    last_written 0x3e07
      (sensor_s_exp_gain sample_header ok_bus (fresh_world 0) 2000000 5).2.trace
      = some 0x80 :=
  ⟨by decide,
   (C8_exp_gain_saturation sample_header ok_bus (fresh_world 0) 2000000 5).2.1,
   ((C8_exp_gain_saturation sample_header ok_bus (fresh_world 0) 2000000 5).2.2.2.2
      (by decide)).2.2.2⟩

/-! ## Short-exposure gain registers -/

/-- C9: for every gain input there are three bytes a (analog), l (digital-low) and
h (digital-high), the byte casts of the encoder's code, such that in HDR mode
`sensor_s_gain` writes a, l, h to the short-exposure registers 0x3e13, 0x3e11, 0x3e10 and
then the same a, l, h to the long-exposure registers 0x3e09, 0x3e07, 0x3e06, and nothing
else; in non-HDR mode it writes only the three long-exposure registers. -/
theorem C9_gain_short_registers (K : Header) (bus : Bus) (w : World) (gain_val : Int) :
    ∃ a l h : Nat,
      a = (sensor_s_gain_code K (wrap_int (gain_val * 8))).gainana % 256 ∧
      l = (sensor_s_gain_code K (wrap_int (gain_val * 8))).gaindiglow % 256 ∧
      h = (sensor_s_gain_code K (wrap_int (gain_val * 8))).gaindighigh % 256 ∧
      (w.info.isp_wdr_mode = K.ISP_DOL_WDR_MODE →
        (sensor_s_gain K bus w gain_val).2.trace =
          w.trace ++ [Action.write 0x3e13 a, Action.write 0x3e11 l, Action.write 0x3e10 h,
            Action.write 0x3e09 a, Action.write 0x3e07 l, Action.write 0x3e06 h]) ∧
      (w.info.isp_wdr_mode ≠ K.ISP_DOL_WDR_MODE →
        (sensor_s_gain K bus w gain_val).2.trace =
          w.trace ++ [Action.write 0x3e09 a, Action.write 0x3e07 l,
            Action.write 0x3e06 h]) :=
  ⟨_, _, _, rfl, rfl, rfl,
    fun hm => sensor_s_gain_trace_hdr K bus w gain_val hm,
    fun hm => sensor_s_gain_trace_normal K bus w gain_val hm⟩

/-- C9 witness: gain request 4000 on a fresh HDR instance and on a fresh non-HDR one. -/
theorem C9_gain_short_registers_witness :
    (fresh_world 1).info.isp_wdr_mode = sample_header.ISP_DOL_WDR_MODE ∧
    (fresh_world 0).info.isp_wdr_mode ≠ sample_header.ISP_DOL_WDR_MODE ∧
    (∃ a l h : Nat,
      (sensor_s_gain sample_header ok_bus (fresh_world 1) 4000).2.trace =
        (fresh_world 1).trace ++ [Action.write 0x3e13 a, Action.write 0x3e11 l,
          Action.write 0x3e10 h, Action.write 0x3e09 a, Action.write 0x3e07 l,
          Action.write 0x3e06 h]) ∧
    (∃ a l h : Nat,
      (sensor_s_gain sample_header ok_bus (fresh_world 0) 4000).2.trace =
        (fresh_world 0).trace ++ [Action.write 0x3e09 a, Action.write 0x3e07 l,
          Action.write 0x3e06 h]) :=
  ⟨by decide, by decide,
   (C9_gain_short_registers sample_header ok_bus (fresh_world 1) 4000).elim
     (fun a ha => ha.elim (fun l hl => hl.elim (fun h hh =>
       ⟨a, l, h, hh.2.2.2.1 (by decide)⟩))),
   (C9_gain_short_registers sample_header ok_bus (fresh_world 0) 4000).elim
     (fun a ha => ha.elim (fun l hl => hl.elim (fun h hh =>
       ⟨a, l, h, hh.2.2.2.2 (by decide)⟩)))⟩

/-! ## Power-on sequence -/

theorem power_labels_ne (K : Header) :
    K.STBY_ON ≠ K.STBY_OFF ∧ K.STBY_ON ≠ K.PWR_ON ∧ K.STBY_ON ≠ K.PWR_OFF ∧
    K.STBY_OFF ≠ K.PWR_ON ∧ K.STBY_OFF ≠ K.PWR_OFF ∧ K.PWR_ON ≠ K.PWR_OFF := by
  have h := K.power_labels_distinct
  simp only [List.nodup_cons, List.mem_cons, List.mem_singleton, not_or, List.not_mem_nil,
    not_false_eq_true, List.nodup_nil, and_true] at h
  obtain ⟨⟨h1, h2, h3⟩, ⟨h4, h5⟩, h6⟩ := h
  exact ⟨h1, h2, h3, h4, h5, h6⟩

/-- The actions of the `PWR_ON` case, in program order. -/
theorem sensor_power_on_eq (K : Header) (bus : Bus) (w : World) :
    sensor_power K bus w K.PWR_ON =
      (0, { w with trace := w.trace ++
        [Action.cci_lock,
         Action.vin_gpio_set_status gpio_pin.PWDN 1,
         Action.vin_gpio_set_status gpio_pin.RESET 1,
         Action.vin_gpio_set_status gpio_pin.POWER_EN 1,
         Action.vin_gpio_write gpio_pin.RESET gpio_level.CSI_GPIO_LOW,
         Action.vin_gpio_write gpio_pin.PWDN gpio_level.CSI_GPIO_LOW,
         Action.vin_gpio_write gpio_pin.POWER_EN gpio_level.CSI_GPIO_HIGH,
         Action.vin_set_pmu_channel pmu_channel.IOVDD on_off.ON,
         Action.vin_set_pmu_channel pmu_channel.DVDD on_off.ON,
         Action.vin_set_pmu_channel pmu_channel.AVDD on_off.ON,
         Action.usleep_range 100 120,
         Action.vin_gpio_write gpio_pin.RESET gpio_level.CSI_GPIO_HIGH,
         Action.vin_gpio_write gpio_pin.PWDN gpio_level.CSI_GPIO_HIGH,
         Action.usleep_range 5000 7000,
         Action.vin_set_mclk on_off.ON,
         Action.usleep_range 5000 7000,
         Action.vin_set_mclk_freq 27000000,
         Action.usleep_range 5000 7000,
         Action.cci_unlock] }) := by
  obtain ⟨_, h2, _, h4, _, _⟩ := power_labels_ne K
  unfold sensor_power
  rw [if_neg (Ne.symm h2), if_neg (Ne.symm h4), if_pos rfl]
  simp [World.emit, MCLK]

/-- C10: `sensor_power(PWR_ON)` returns 0 and its actions are, in order: lock, GPIO
direction set-up, RESET low, PWDN low, POWER_EN high, rails IOVDD, DVDD, AVDD on, a
100-120 us delay, RESET high, PWDN high, a 5-7 ms delay, clock on, a delay, clock
frequency MCLK = 27 MHz, a delay, unlock. So the RESET / PWDN / rail / clock / delay
steps occur exactly in the order low, low, I/O, digital, analog, settle, release,
release, delay, clock enable, delay, frequency, delay; no rail is enabled after RESET
is released (position 11) and the clock is enabled (position 14) only after it. -/
theorem C10_power_on_order (K : Header) (bus : Bus) (w : World) :
    ∃ acts : List Action,
      (sensor_power K bus w K.PWR_ON).1 = 0 ∧
      (sensor_power K bus w K.PWR_ON).2.trace = w.trace ++ acts ∧
      acts.take 7 =
        [Action.cci_lock,
         Action.vin_gpio_set_status gpio_pin.PWDN 1,
         Action.vin_gpio_set_status gpio_pin.RESET 1,
         Action.vin_gpio_set_status gpio_pin.POWER_EN 1,
         Action.vin_gpio_write gpio_pin.RESET gpio_level.CSI_GPIO_LOW,
         Action.vin_gpio_write gpio_pin.PWDN gpio_level.CSI_GPIO_LOW,
         Action.vin_gpio_write gpio_pin.POWER_EN gpio_level.CSI_GPIO_HIGH] ∧
      acts.filter is_power_step =
        [Action.vin_gpio_write gpio_pin.RESET gpio_level.CSI_GPIO_LOW,
         Action.vin_gpio_write gpio_pin.PWDN gpio_level.CSI_GPIO_LOW,
         Action.vin_set_pmu_channel pmu_channel.IOVDD on_off.ON,
         Action.vin_set_pmu_channel pmu_channel.DVDD on_off.ON,
         Action.vin_set_pmu_channel pmu_channel.AVDD on_off.ON,
         Action.usleep_range 100 120,
         Action.vin_gpio_write gpio_pin.RESET gpio_level.CSI_GPIO_HIGH,
         Action.vin_gpio_write gpio_pin.PWDN gpio_level.CSI_GPIO_HIGH,
         Action.usleep_range 5000 7000,
         Action.vin_set_mclk on_off.ON,
         Action.usleep_range 5000 7000,
         Action.vin_set_mclk_freq MCLK,
         Action.usleep_range 5000 7000] ∧
      acts.getLast? = some Action.cci_unlock ∧
      acts.length = 19 ∧
      MCLK = 27000000 ∧
      positions (Action.vin_gpio_write gpio_pin.RESET gpio_level.CSI_GPIO_HIGH) acts = [11] ∧
      positions (Action.vin_set_mclk on_off.ON) acts = [14] ∧
      (∀ rail : pmu_channel,
        all_before (Action.vin_set_pmu_channel rail on_off.ON)
          (Action.vin_gpio_write gpio_pin.RESET gpio_level.CSI_GPIO_HIGH) acts = true) ∧
      all_before (Action.vin_gpio_write gpio_pin.RESET gpio_level.CSI_GPIO_HIGH)
        (Action.vin_set_mclk on_off.ON) acts = true := by
  refine ⟨_, ?_, congrArg (fun r => r.2.trace) (sensor_power_on_eq K bus w),
    ?_, ?_, ?_, ?_, ?_, ?_, ?_, ?_, ?_⟩
  · rw [sensor_power_on_eq]
  · decide
  · decide
  · decide
  · decide
  · decide
  · decide
  · decide
  · intro rail; cases rail <;> decide
  · decide

/-! ## Power-off sequence -/

/-- The actions of the `PWR_OFF` case, in program order. -/
theorem sensor_power_off_eq (K : Header) (bus : Bus) (w : World) :
    sensor_power K bus w K.PWR_OFF =
      (0, { w with trace := w.trace ++
        [Action.cci_lock,
         Action.vin_gpio_set_status gpio_pin.PWDN 1,
         Action.vin_gpio_set_status gpio_pin.RESET 1,
         Action.vin_gpio_write gpio_pin.RESET gpio_level.CSI_GPIO_LOW,
         Action.vin_gpio_write gpio_pin.PWDN gpio_level.CSI_GPIO_LOW,
         Action.vin_set_mclk on_off.OFF,
         Action.vin_set_pmu_channel pmu_channel.AFVDD on_off.OFF,
         Action.vin_set_pmu_channel pmu_channel.AVDD on_off.OFF,
         Action.vin_set_pmu_channel pmu_channel.IOVDD on_off.OFF,
         Action.vin_set_pmu_channel pmu_channel.DVDD on_off.OFF,
         Action.vin_gpio_write gpio_pin.POWER_EN gpio_level.CSI_GPIO_LOW,
         Action.vin_gpio_set_status gpio_pin.RESET 0,
         Action.vin_gpio_set_status gpio_pin.PWDN 0,
         Action.vin_gpio_set_status gpio_pin.POWER_EN 0,
         Action.cci_unlock] }) := by
  obtain ⟨_, _, h3, _, h5, h6⟩ := power_labels_ne K
  unfold sensor_power
  rw [if_neg (Ne.symm h3), if_neg (Ne.symm h5), if_neg (Ne.symm h6), if_pos rfl]
  simp [World.emit]

/-- C11 (as the code behaves): `sensor_power(PWR_OFF)` returns 0 and switches the rails
off in the order AFVDD, AVDD, IOVDD, DVDD: the analog rail goes down before the I/O and
the digital core rails, and the I/O rail goes down before the digital core rail. -/
theorem C11_power_off_rail_order (K : Header) (bus : Bus) (w : World) :
    ∃ acts : List Action,
      (sensor_power K bus w K.PWR_OFF).1 = 0 ∧
      (sensor_power K bus w K.PWR_OFF).2.trace = w.trace ++ acts ∧
      acts.filter is_rail_switch =
        [Action.vin_set_pmu_channel pmu_channel.AFVDD on_off.OFF,
         Action.vin_set_pmu_channel pmu_channel.AVDD on_off.OFF,
         Action.vin_set_pmu_channel pmu_channel.IOVDD on_off.OFF,
         Action.vin_set_pmu_channel pmu_channel.DVDD on_off.OFF] ∧
      positions (Action.vin_set_pmu_channel pmu_channel.AVDD on_off.OFF) acts = [7] ∧
      positions (Action.vin_set_pmu_channel pmu_channel.IOVDD on_off.OFF) acts = [8] ∧
      positions (Action.vin_set_pmu_channel pmu_channel.DVDD on_off.OFF) acts = [9] ∧
      all_before (Action.vin_set_pmu_channel pmu_channel.AVDD on_off.OFF)
        (Action.vin_set_pmu_channel pmu_channel.IOVDD on_off.OFF) acts = true ∧
      all_before (Action.vin_set_pmu_channel pmu_channel.AVDD on_off.OFF)
        (Action.vin_set_pmu_channel pmu_channel.DVDD on_off.OFF) acts = true ∧
      all_before (Action.vin_set_pmu_channel pmu_channel.IOVDD on_off.OFF)
        (Action.vin_set_pmu_channel pmu_channel.DVDD on_off.OFF) acts = true := by
  refine ⟨_, ?_, congrArg (fun r => r.2.trace) (sensor_power_off_eq K bus w),
    ?_, ?_, ?_, ?_, ?_, ?_, ?_⟩
  · rw [sensor_power_off_eq]
  all_goals decide

/-- C11 counterexample: in the power-off trace of a fresh instance the I/O rail is
switched off at position 8 and the digital core rail at position 9, so it is not the
case that AVDD goes off before DVDD and DVDD before IOVDD. -/
theorem C11_iovdd_off_before_dvdd_off :
    positions (Action.vin_set_pmu_channel pmu_channel.IOVDD on_off.OFF)
      (sensor_power sample_header ok_bus (fresh_world 0) sample_header.PWR_OFF).2.trace
      = [8] ∧
    positions (Action.vin_set_pmu_channel pmu_channel.DVDD on_off.OFF)
      (sensor_power sample_header ok_bus (fresh_world 0) sample_header.PWR_OFF).2.trace
      = [9] ∧
    ¬ (all_before (Action.vin_set_pmu_channel pmu_channel.AVDD on_off.OFF)
          (Action.vin_set_pmu_channel pmu_channel.DVDD on_off.OFF)
          (sensor_power sample_header ok_bus (fresh_world 0) sample_header.PWR_OFF).2.trace
          = true ∧
        all_before (Action.vin_set_pmu_channel pmu_channel.DVDD on_off.OFF)
          (Action.vin_set_pmu_channel pmu_channel.IOVDD on_off.OFF)
          (sensor_power sample_header ok_bus (fresh_world 0) sample_header.PWR_OFF).2.trace
          = true) := by
  decide

/-! ## Standby toggling -/

theorem sensor_s_sw_stby_ok (K : Header) (bus : Bus) (w : World) (on_off : Int) (v : Nat)
    (h : bus.read_res w.trace 0x0100 = ReadResult.ok v) :
    sensor_s_sw_stby K bus w on_off =
      sensor_write bus (w.emit (Action.read 0x0100)) 0x0100
        (if on_off = K.STBY_ON then v &&& 0xfe else v ||| 0x01) := by
  unfold sensor_s_sw_stby sensor_read
  rw [h]
  split_ifs <;> rfl

theorem sensor_s_sw_stby_fail (K : Header) (bus : Bus) (w : World) (on_off : Int) (ret : Int)
    (hr : ret ≠ 0) (stored : Option Nat)
    (h : bus.read_res w.trace 0x0100 = ReadResult.fail ret hr stored) :
    sensor_s_sw_stby K bus w on_off = (ret, w.emit (Action.read 0x0100)) := by
  unfold sensor_s_sw_stby sensor_read
  rw [h]

theorem sensor_power_stby_on_eq (K : Header) (bus : Bus) (w : World) :
    sensor_power K bus w K.STBY_ON =
      (0, (((sensor_s_sw_stby K bus (w.emit Action.cci_lock) K.STBY_ON).2.emit
        (Action.usleep_range 10000 12000)).emit Action.cci_unlock)) := by
  unfold sensor_power
  rw [if_pos rfl]

theorem sensor_power_stby_off_eq (K : Header) (bus : Bus) (w : World) :
    sensor_power K bus w K.STBY_OFF =
      (0, ((sensor_s_sw_stby K bus
        ((w.emit Action.cci_lock).emit (Action.usleep_range 10000 12000)) K.STBY_OFF).2.emit
          Action.cci_unlock)) := by
  obtain ⟨h1, _, _, _, _, _⟩ := power_labels_ne K
  unfold sensor_power
  rw [if_neg (Ne.symm h1), if_pos rfl]

theorem testBit_and_0xfe (v i : Nat) (h1 : 1 ≤ i) (h2 : i ≤ 7) :
    (v &&& 0xfe).testBit i = v.testBit i := by
  rw [Nat.testBit_and]
  have : (0xfe : Nat).testBit i = true := by
    interval_cases i <;> decide
  rw [this, Bool.and_true]

theorem testBit_or_0x01 (v i : Nat) (h1 : 1 ≤ i) :
    (v ||| 0x01).testBit i = v.testBit i := by
  rw [Nat.testBit_or]
  obtain ⟨j, rfl⟩ : ∃ j, i = j + 1 := ⟨i - 1, by omega⟩
  have : (0x01 : Nat).testBit (j + 1) = false := by
    rw [Nat.testBit_succ]; simp
  rw [this, Bool.or_false]

/-- C12: standby toggling is a read-modify-write of register 0x0100. When the read
delivers v, `sensor_s_sw_stby` issues the read and then one write of v & 0xFE (entering
standby) or v | 0x01 (leaving standby); bit 0 of the written value is cleared / set and
bits 1-7 are those of v. When the read fails, the read is the only bus action (no
write) and its code is returned. Inside `sensor_power` the same two bus actions occur
between lock and unlock, after the read in both directions. -/
theorem C12_standby_read_modify_write (K : Header) (bus : Bus) (w : World) (v : Nat) :
    (bus.read_res w.trace 0x0100 = ReadResult.ok v →
      (sensor_s_sw_stby K bus w K.STBY_ON).2.trace =
        w.trace ++ [Action.read 0x0100, Action.write 0x0100 (v &&& 0xfe)] ∧
      (sensor_s_sw_stby K bus w K.STBY_OFF).2.trace =
        w.trace ++ [Action.read 0x0100, Action.write 0x0100 (v ||| 0x01)]) ∧
    (∀ (ret : Int) (hr : ret ≠ 0) (stored : Option Nat) (on_off : Int),
      bus.read_res w.trace 0x0100 = ReadResult.fail ret hr stored →
      (sensor_s_sw_stby K bus w on_off).1 = ret ∧
      (sensor_s_sw_stby K bus w on_off).2.trace = w.trace ++ [Action.read 0x0100]) ∧
    ((v &&& 0xfe).testBit 0 = false ∧
      ∀ i, 1 ≤ i → i ≤ 7 → (v &&& 0xfe).testBit i = v.testBit i) ∧
    ((v ||| 0x01).testBit 0 = true ∧
      ∀ i, 1 ≤ i → (v ||| 0x01).testBit i = v.testBit i) ∧
    (bus.read_res (w.trace ++ [Action.cci_lock]) 0x0100 = ReadResult.ok v →
      (sensor_power K bus w K.STBY_ON).2.trace =
        w.trace ++ [Action.cci_lock, Action.read 0x0100, Action.write 0x0100 (v &&& 0xfe),
          Action.usleep_range 10000 12000, Action.cci_unlock]) ∧
    (bus.read_res (w.trace ++ [Action.cci_lock, Action.usleep_range 10000 12000]) 0x0100
        = ReadResult.ok v →
      (sensor_power K bus w K.STBY_OFF).2.trace =
        w.trace ++ [Action.cci_lock, Action.usleep_range 10000 12000, Action.read 0x0100,
          Action.write 0x0100 (v ||| 0x01), Action.cci_unlock]) := by
  obtain ⟨h1, _, _, _, _, _⟩ := power_labels_ne K
  refine ⟨?_, ?_, ⟨?_, testBit_and_0xfe v⟩, ⟨?_, testBit_or_0x01 v⟩, ?_, ?_⟩
  · intro h
    rw [sensor_s_sw_stby_ok K bus w K.STBY_ON v h, sensor_s_sw_stby_ok K bus w K.STBY_OFF v h,
      if_pos rfl, if_neg (Ne.symm h1)]
    simp [sensor_write, World.emit]
  · intro ret hr stored on_off h
    rw [sensor_s_sw_stby_fail K bus w on_off ret hr stored h]
    exact ⟨rfl, rfl⟩
  · rw [Nat.testBit_and]; simp
  · rw [Nat.testBit_or]; simp
  · intro h
    rw [sensor_power_stby_on_eq,
      sensor_s_sw_stby_ok K bus (w.emit Action.cci_lock) K.STBY_ON v h, if_pos rfl]
    simp [sensor_write, World.emit]
  · intro h
    rw [sensor_power_stby_off_eq,
      sensor_s_sw_stby_ok K bus
        ((w.emit Action.cci_lock).emit (Action.usleep_range 10000 12000)) K.STBY_OFF v
        (by simpa [World.emit] using h),
      if_neg (Ne.symm h1)]
    simp [sensor_write, World.emit]

/-- C12 witness: register 0x0100 reads 0 on a fresh instance; entering standby writes
0 & 0xFE and leaving it writes 0 | 0x01. -/
theorem C12_standby_read_modify_write_witness :
    ok_bus.read_res (fresh_world 0).trace 0x0100 = ReadResult.ok 0 ∧
    (sensor_s_sw_stby sample_header ok_bus (fresh_world 0) sample_header.STBY_ON).2.trace =
      (fresh_world 0).trace ++ [Action.read 0x0100, Action.write 0x0100 (0 &&& 0xfe)] ∧
    (sensor_s_sw_stby sample_header ok_bus (fresh_world 0) sample_header.STBY_OFF).2.trace =
      (fresh_world 0).trace ++ [Action.read 0x0100, Action.write 0x0100 (0 ||| 0x01)] ∧
    (sensor_power sample_header ok_bus (fresh_world 0) sample_header.STBY_OFF).2.trace =
      (fresh_world 0).trace ++ [Action.cci_lock, Action.usleep_range 10000 12000,
        Action.read 0x0100, Action.write 0x0100 (0 ||| 0x01), Action.cci_unlock] :=
  ⟨rfl,
   ((C12_standby_read_modify_write sample_header ok_bus (fresh_world 0) 0).1 rfl).1,
   ((C12_standby_read_modify_write sample_header ok_bus (fresh_world 0) 0).1 rfl).2,
   (C12_standby_read_modify_write sample_header ok_bus (fresh_world 0) 0).2.2.2.2.2 rfl⟩

/-- C13 (evaluation at the failing input): on a bus whose read of 0x0100 fails with
code -5, `sensor_s_sw_stby` returns -5 and issues no write, but `sensor_power(STBY_ON)`
and `sensor_power(STBY_OFF)` return 0; and on every bus, whatever the read and the write
of 0x0100 return, both return 0. -/
theorem C13_standby_error_not_returned (K : Header) (bus : Bus) (w : World) :
    (sensor_s_sw_stby K failing_bus (w.emit Action.cci_lock) K.STBY_ON).1 = -5 ∧
    (sensor_power K failing_bus w K.STBY_ON).1 = 0 ∧
    (sensor_power K failing_bus w K.STBY_ON).2.trace =
      w.trace ++ [Action.cci_lock, Action.read 0x0100, Action.usleep_range 10000 12000,
        Action.cci_unlock] ∧
    (sensor_s_sw_stby K failing_bus
      ((w.emit Action.cci_lock).emit (Action.usleep_range 10000 12000)) K.STBY_OFF).1 = -5 ∧
    (sensor_power K failing_bus w K.STBY_OFF).1 = 0 ∧
    (sensor_power K failing_bus w K.STBY_OFF).2.trace =
      w.trace ++ [Action.cci_lock, Action.usleep_range 10000 12000, Action.read 0x0100,
        Action.cci_unlock] ∧
    (sensor_power K bus w K.STBY_ON).1 = 0 ∧
    (sensor_power K bus w K.STBY_OFF).1 = 0 := by
  have f : ∀ (w1 : World) (on_off : Int),
      sensor_s_sw_stby K failing_bus w1 on_off = (-5, w1.emit (Action.read 0x0100)) :=
    fun w1 on_off => sensor_s_sw_stby_fail K failing_bus w1 on_off (-5) (by decide) none rfl
  refine ⟨?_, ?_, ?_, ?_, ?_, ?_, ?_, ?_⟩
  · rw [f]
  · rw [sensor_power_stby_on_eq]
  · rw [sensor_power_stby_on_eq, f]; simp [World.emit]
  · rw [f]
  · rw [sensor_power_stby_off_eq]
  · rw [sensor_power_stby_off_eq, f]; simp [World.emit]
  · rw [sensor_power_stby_on_eq]
  · rw [sensor_power_stby_off_eq]

/-! ## Bus errors in the exposure / gain operations -/

theorem sensor_s_exp_bus_irrelevant (K : Header) (bus bus2 : Bus) (w : World) (e : Nat) :
    sensor_s_exp K bus w e = sensor_s_exp K bus2 w e := by
  by_cases h : w.info.isp_wdr_mode = K.ISP_DOL_WDR_MODE
  · rw [sensor_s_exp_hdr K bus w e h, sensor_s_exp_hdr K bus2 w e h]
  · rw [sensor_s_exp_normal K bus w e h, sensor_s_exp_normal K bus2 w e h]

theorem sensor_s_gain_bus_irrelevant (K : Header) (bus bus2 : Bus) (w : World) (g : Int) :
    sensor_s_gain K bus w g = sensor_s_gain K bus2 w g := by
  simp only [sensor_s_gain, sensor_write]

/-- C14 (as the code behaves): the exposure / gain operations do not look at the result
of their register writes. On every bus `sensor_s_exp`, `sensor_s_gain` and
`sensor_s_exp_gain` return 0, and their whole result (return value, writes issued,
stored exposure and gain) is the same on any two buses: every write is issued once,
whatever the earlier ones returned, and no bus error is returned. -/
theorem C14_exp_gain_ignore_write_errors (K : Header) (bus bus2 : Bus) (w : World)
    (e : Nat) (ev g : Int) :
    (sensor_s_exp K bus w e).1 = 0 ∧
    (sensor_s_gain K bus w g).1 = 0 ∧
    (sensor_s_exp_gain K bus w ev g).1 = 0 ∧
    sensor_s_exp K bus w e = sensor_s_exp K bus2 w e ∧
    sensor_s_gain K bus w g = sensor_s_gain K bus2 w g ∧
    sensor_s_exp_gain K bus w ev g = sensor_s_exp_gain K bus2 w ev g := by
  refine ⟨?_, rfl, rfl, sensor_s_exp_bus_irrelevant K bus bus2 w e,
    sensor_s_gain_bus_irrelevant K bus bus2 w g, ?_⟩
  · by_cases h : w.info.isp_wdr_mode = K.ISP_DOL_WDR_MODE
    · rw [sensor_s_exp_hdr K bus w e h]
    · rw [sensor_s_exp_normal K bus w e h]
  · simp only [sensor_s_exp_gain, sensor_s_exp_bus_irrelevant K bus bus2,
      sensor_s_gain_bus_irrelevant K bus bus2]

/-- C14 counterexample: on a bus whose every write fails with code -5, exposure 100,
gain 64 and the combined update on a fresh instance all return 0, not -5, and the
exposure update still issues its three writes. -/
theorem C14_write_error_not_returned :
    failing_bus.write_ret [] 0x3e02 0xc0 = -5 ∧
    (sensor_s_exp sample_header failing_bus (fresh_world 0) 100).1 = 0 ∧
    (sensor_s_exp sample_header failing_bus (fresh_world 0) 100).2.trace =
      [Action.write 0x3e02 0xc0, Action.write 0x3e01 0x00, Action.write 0x3e00 0x00] ∧
    (sensor_s_gain sample_header failing_bus (fresh_world 0) 64).1 = 0 ∧
    (sensor_s_exp_gain sample_header failing_bus (fresh_world 0) 100 64).1 = 0 ∧
    ¬ ((sensor_s_exp sample_header failing_bus (fresh_world 0) 100).1 = -5 ∧
       (sensor_s_gain sample_header failing_bus (fresh_world 0) 64).1 = -5 ∧
       (sensor_s_exp_gain sample_header failing_bus (fresh_world 0) 100 64).1 = -5) := by
  decide

/-! ## The mode table -/

/-- C15: the six entries of `sensor_win_sizes` answer pairwise different requests
(width, height, fixed frame rate, HDR flag); exactly one entry answers
(2880, 1620, 30 fps, HDR = false), and it has hts = 3200, vts = 1650,
pclk = 158400000 and the register table `sensor_2880x1620_30fps_regs` (the six
register tables are pairwise different). -/
theorem C15_mode_table_unique :
    sensor_win_sizes.length = 6 ∧
    (sensor_win_sizes.map sensor_win_size.request).Nodup ∧
    (sensor_win_sizes.filter
        (fun d => decide (d.request = (2880, 1620, 30, false)))).length = 1 ∧
    (sensor_win_sizes.filter
        (fun d => decide (d.request = (2880, 1620, 30, false)))).map
          (fun d => (d.hts, d.vts, d.pclk)) = [(3200, 1650, 158400000)] ∧
    (sensor_win_sizes.filter
        (fun d => decide (d.request = (2880, 1620, 30, false)))).map
          (fun d => d.regs) = [sensor_2880x1620_30fps_regs] ∧
    (sensor_win_sizes.map (fun d => d.regs)).Nodup := by
  refine ⟨rfl, by decide, by decide, by decide, ?_, ?_⟩
  · decide
  · decide

/-! ## Stream enable and disable -/

theorem sensor_write_array_ok (bus : Bus) (hok : ∀ t reg v, bus.write_ret t reg v = 0)
    (regs : List (Nat × Nat)) (w : World) :
    sensor_write_array bus w regs =
      (0, { w with trace := w.trace ++ regs.map (fun p => Action.write p.1 p.2) }) := by
  induction regs generalizing w with
  | nil => simp [sensor_write_array]
  | cons p rest ih =>
    obtain ⟨reg, value⟩ := p
    rw [sensor_write_array]
    have h0 : (sensor_write bus w reg value).1 = 0 := hok _ _ _
    rw [if_neg (by rw [h0]; decide), ih]
    simp [sensor_write, World.emit]

theorem sensor_reg_init_ok (bus : Bus) (hok : ∀ t reg v, bus.write_ret t reg v = 0)
    (w : World) (d : sensor_win_size) (hc : w.info.current_wins = some d) :
    sensor_reg_init bus w =
      some (0, { info := { w.info with width := d.width, height := d.height },
                 sc530ai_sensor_vts := to_s32 d.vts,
                 trace := w.trace ++ d.regs.map (fun p => Action.write p.1 p.2) }) := by
  unfold sensor_reg_init
  rw [hc]
  simp [sensor_write_array_ok bus hok, sensor_default_regs, sensor_fmt_raw]

/-- Facts shared by the six entries of the mode table. -/
theorem sensor_win_sizes_facts (d : sensor_win_size) (hd : d ∈ sensor_win_sizes) :
    d.regs.getLast? = some (0x0100, 0x01) ∧ to_s32 d.vts = (d.vts : Int) ∧
    d.hts = 3200 ∧ d.pclk < 2 ^ 31 ∧
    (d.request = (2880, 1620, 30, false) → d.regs = sensor_2880x1620_30fps_regs) := by
  simp only [sensor_win_sizes, List.mem_cons, List.mem_singleton, List.not_mem_nil,
    or_false] at hd
  rcases hd with rfl | rfl | rfl | rfl | rfl | rfl <;> decide

/-- C16: on a bus whose writes succeed, for every entry d of the mode table taken as the
current window, `sensor_s_stream` with enable != 0 returns 0 and issues exactly the
writes of d's register table, entry by entry in table order, and no other action; the
last of them is the stream-enable write (0x0100, 0x01); afterwards the state's width and
height and the frame-length variable are d's width, height and vts, the current window,
exposure and gain are as before. For the entry answering (2880, 1620, 30 fps, non-HDR)
the table is `sensor_2880x1620_30fps_regs`. -/
theorem C16_stream_enable_writes_table (bus : Bus) (w : World) (d : sensor_win_size)
    (enable : Int) (hd : d ∈ sensor_win_sizes) (hc : w.info.current_wins = some d)
    (he : enable ≠ 0) (hok : ∀ t reg v, bus.write_ret t reg v = 0) :
    ∃ w1 : World,
      sensor_s_stream bus w enable = some (0, w1) ∧
      w1.trace = w.trace ++ d.regs.map (fun p => Action.write p.1 p.2) ∧
      w1.trace.getLast? = some (Action.write 0x0100 0x01) ∧
      w1.info.width = d.width ∧ w1.info.height = d.height ∧
      w1.sc530ai_sensor_vts = (d.vts : Int) ∧
      w1.info.current_wins = some d ∧
      w1.info.exp = w.info.exp ∧ w1.info.gain = w.info.gain ∧
      (d.request = (2880, 1620, 30, false) → d.regs = sensor_2880x1620_30fps_regs) := by
  obtain ⟨hl, hv, _, _, hr⟩ := sensor_win_sizes_facts d hd
  refine ⟨{ info := { w.info with width := d.width, height := d.height },
            sc530ai_sensor_vts := to_s32 d.vts,
            trace := w.trace ++ d.regs.map (fun p => Action.write p.1 p.2) },
    ?_, rfl, ?_, rfl, rfl, hv, hc, rfl, rfl, hr⟩
  · unfold sensor_s_stream
    rw [hc]
    simp only [if_neg he]
    exact sensor_reg_init_ok bus hok w d hc
  · simp only [List.getLast?_append, List.getLast?_map, hl, Option.map_some', Option.or_some]

/-- C16 witness: stream enable on a fresh instance whose current window is the
2880x1620 30 fps non-HDR entry writes `sensor_2880x1620_30fps_regs`. -/
theorem C16_stream_enable_writes_table_witness :
    win_2880x1620_30fps ∈ sensor_win_sizes ∧
    (mode_world win_2880x1620_30fps).info.current_wins = some win_2880x1620_30fps ∧
    (1 : Int) ≠ 0 ∧
    win_2880x1620_30fps.regs = sensor_2880x1620_30fps_regs ∧
    ∃ w1 : World,
      sensor_s_stream ok_bus (mode_world win_2880x1620_30fps) 1 = some (0, w1) ∧
      w1.trace = (mode_world win_2880x1620_30fps).trace ++
        win_2880x1620_30fps.regs.map (fun p => Action.write p.1 p.2) :=
  ⟨by decide, rfl, by decide, rfl,
   (C16_stream_enable_writes_table ok_bus (mode_world win_2880x1620_30fps)
      win_2880x1620_30fps 1 (by decide) rfl (by decide) (fun _ _ _ => rfl)).elim
     (fun w1 h => ⟨w1, h.1, h.2.1⟩)⟩

/-- C20: for every state with a current window, `sensor_s_stream` with enable = 0
returns 0 and leaves the whole state unchanged: no action is issued (the trace is the
same) and mode, width, height, frame length, exposure and gain are untouched. -/
theorem C20_stream_disable_noop (bus : Bus) (w : World) (d : sensor_win_size)
    (hc : w.info.current_wins = some d) :
    sensor_s_stream bus w 0 = some (0, w) := by
  unfold sensor_s_stream
  rw [hc]
  simp

/-- C20 witness: stream disable after the 2880x1620 30 fps mode was selected, on a bus
that would fail every transaction. -/
theorem C20_stream_disable_noop_witness :
    (mode_world win_2880x1620_30fps).info.current_wins = some win_2880x1620_30fps ∧
    sensor_s_stream failing_bus (mode_world win_2880x1620_30fps) 0
      = some (0, mode_world win_2880x1620_30fps) :=
  ⟨rfl, C20_stream_disable_noop failing_bus (mode_world win_2880x1620_30fps)
    win_2880x1620_30fps rfl⟩

/-! ## Frame-rate override -/

theorem ioctl_labels_ne (K : Header) :
    K.GET_CURRENT_WIN_CFG ≠ K.SET_FPS ∧
    K.GET_CURRENT_WIN_CFG ≠ K.VIDIOC_VIN_SENSOR_EXP_GAIN ∧
    K.GET_CURRENT_WIN_CFG ≠ K.VIDIOC_VIN_SENSOR_SET_FPS ∧
    K.GET_CURRENT_WIN_CFG ≠ K.VIDIOC_VIN_SENSOR_CFG_REQ ∧
    K.SET_FPS ≠ K.VIDIOC_VIN_SENSOR_EXP_GAIN ∧
    K.SET_FPS ≠ K.VIDIOC_VIN_SENSOR_SET_FPS ∧
    K.SET_FPS ≠ K.VIDIOC_VIN_SENSOR_CFG_REQ ∧
    K.VIDIOC_VIN_SENSOR_EXP_GAIN ≠ K.VIDIOC_VIN_SENSOR_SET_FPS ∧
    K.VIDIOC_VIN_SENSOR_EXP_GAIN ≠ K.VIDIOC_VIN_SENSOR_CFG_REQ ∧
    K.VIDIOC_VIN_SENSOR_SET_FPS ≠ K.VIDIOC_VIN_SENSOR_CFG_REQ := by
  have h := K.ioctl_labels_distinct
  simp only [List.nodup_cons, List.mem_cons, List.mem_singleton, not_or, List.not_mem_nil,
    not_false_eq_true, List.nodup_nil, and_true] at h
  obtain ⟨⟨h1, h2, h3, h4⟩, ⟨h5, h6, h7⟩, ⟨h8, h9⟩, h10⟩ := h
  exact ⟨h1, h2, h3, h4, h5, h6, h7, h8, h9, h10⟩

theorem sensor_s_fps_eq (w : World) (d : sensor_win_size) (fps : Nat)
    (hc : w.info.current_wins = some d) (hf : 0 < fps) (hh : 0 < d.hts)
    (hp : d.pclk < 2 ^ 31) :
    sensor_s_fps w fps =
      some (0, { w with sc530ai_sensor_vts := ((d.pclk / fps / d.hts : Nat) : Int) }) := by
  have hq : d.pclk / fps / d.hts ≤ d.pclk :=
    le_trans (Nat.div_le_self _ _) (Nat.div_le_self _ _)
  have hs : ∀ q : Nat, q ≤ d.pclk → to_s32 q = (q : Int) := by
    intro q hle
    unfold to_s32
    exact wrap_int_of_bounds _ (by omega) (by omega)
  unfold sensor_s_fps
  rw [hc]
  simp only [hs _ hq]
  rw [if_neg (by omega)]

/-- C17 (as the code behaves): for every current window d (hts > 0, pclk below 2^31, as
for all six modes) and every fps > 0, `sensor_s_fps`, also when reached through
`sensor_ioctl(VIDIOC_VIN_SENSOR_SET_FPS)`, returns 0 and stores
vts = pclk / fps / hts (truncating) in the file-scope variable `sc530ai_sensor_vts`
and changes nothing else: no action is issued, exposure, gain and the current window
with its register table are untouched. `GET_CURRENT_WIN_CFG` afterwards reports the
descriptor d unchanged, with its compiled-in vts. -/
theorem C17_fps_override (K : Header) (bus : Bus) (w : World) (d : sensor_win_size)
    (fps : Nat) (hc : w.info.current_wins = some d) (hf : 0 < fps) (hh : 0 < d.hts)
    (hp : d.pclk < 2 ^ 31) :
    sensor_s_fps w fps =
      some (0, { w with sc530ai_sensor_vts := ((d.pclk / fps / d.hts : Nat) : Int) }) ∧
    sensor_ioctl K bus w K.VIDIOC_VIN_SENSOR_SET_FPS (ioctl_arg.fps fps) =
      some (0, none,
        { w with sc530ai_sensor_vts := ((d.pclk / fps / d.hts : Nat) : Int) }) ∧
    sensor_ioctl K bus
        { w with sc530ai_sensor_vts := ((d.pclk / fps / d.hts : Nat) : Int) }
        K.GET_CURRENT_WIN_CFG ioctl_arg.other =
      some (0, some d,
        { w with sc530ai_sensor_vts := ((d.pclk / fps / d.hts : Nat) : Int) }) := by
  obtain ⟨_, _, h3, _, _, h6, _, h8, _, _⟩ := ioctl_labels_ne K
  refine ⟨sensor_s_fps_eq w d fps hc hf hh hp, ?_, ?_⟩
  · unfold sensor_ioctl
    rw [if_neg (Ne.symm h3), if_neg (Ne.symm h6), if_neg (Ne.symm h8), if_pos rfl]
    simp only [sensor_s_fps_eq w d fps hc hf hh hp, Option.map_some']
  · unfold sensor_ioctl
    rw [if_pos rfl]
    simp only [hc]

/-- C17 witness: 15 fps requested in the 2880x1620 30 fps mode. -/
theorem C17_fps_override_witness :
    (mode_world win_2880x1620_30fps).info.current_wins = some win_2880x1620_30fps ∧
    0 < 15 ∧ 0 < win_2880x1620_30fps.hts ∧ win_2880x1620_30fps.pclk < 2 ^ 31 ∧
    sensor_s_fps (mode_world win_2880x1620_30fps) 15 =
      some (0, { mode_world win_2880x1620_30fps with
        sc530ai_sensor_vts :=
          ((win_2880x1620_30fps.pclk / 15 / win_2880x1620_30fps.hts : Nat) : Int) }) :=
  ⟨rfl, by decide, by decide, by decide,
   (C17_fps_override sample_header ok_bus (mode_world win_2880x1620_30fps)
      win_2880x1620_30fps 15 rfl (by decide) (by decide) (by decide)).1⟩

/-- C17 counterexample: in the 2880x1620 30 fps mode a frame-rate override to 15 fps
computes vts = 158400000 / 15 / 3200 = 3300 into `sc530ai_sensor_vts`, but
`GET_CURRENT_WIN_CFG` afterwards still reports vts = 1650: the live descriptor is not
updated. -/
theorem C17_descriptor_vts_not_updated :
    (158400000 / 15 / 3200 : Nat) = 3300 ∧
    ((sensor_ioctl sample_header ok_bus (mode_world win_2880x1620_30fps)
        sample_header.VIDIOC_VIN_SENSOR_SET_FPS (ioctl_arg.fps 15)).map
      (fun r => (r.1, r.2.2.sc530ai_sensor_vts))) = some (0, 3300) ∧
    ((sensor_ioctl sample_header ok_bus (mode_world win_2880x1620_30fps)
        sample_header.VIDIOC_VIN_SENSOR_SET_FPS (ioctl_arg.fps 15)).bind
      (fun r => (sensor_ioctl sample_header ok_bus r.2.2 sample_header.GET_CURRENT_WIN_CFG
        ioctl_arg.other).map (fun q => (q.1, q.2.1.map (fun d => d.vts)))))
      = some (0, some 1650) := by
  decide

/-! ## Device detection -/

theorem sensor_detect_ret (K : Header) (bus : Bus) (w : World) (a b : Nat)
    (ha : bus.read_res w.trace 0x3107 = ReadResult.ok a)
    (hb : bus.read_res (w.trace ++ [Action.read 0x3107]) 0x3108 = ReadResult.ok b) :
    (sensor_detect K bus w).1 =
      if a ≠ 0x9e then -K.ENODEV else if b ≠ 0x39 then -K.ENODEV else 0 := by
  have e1 : V4L2_IDENT_SENSOR >>> 8 = 0x9e := by decide
  have e2 : V4L2_IDENT_SENSOR &&& 0xff = 0x39 := by decide
  unfold sensor_detect sensor_read
  simp only [ha, World.emit, hb, ReadResult.store, e1, e2]
  split_ifs <;> rfl

/-- C18: when the identity registers 0x3107 and 0x3108 read a and b, and the error code
ENODEV is non-zero, `sensor_detect` returns 0 exactly when a = 0x9e and b = 0x39 (the
two bytes of the identifier 0x9e39), and returns -ENODEV when either differs. -/
theorem C18_detect_iff_identity (K : Header) (bus : Bus) (w : World) (a b : Nat)
    (hE : K.ENODEV ≠ 0)
    (ha : bus.read_res w.trace 0x3107 = ReadResult.ok a)
    (hb : bus.read_res (w.trace ++ [Action.read 0x3107]) 0x3108 = ReadResult.ok b) :
    ((sensor_detect K bus w).1 = 0 ↔ (a = 0x9e ∧ b = 0x39)) ∧
    (¬ (a = 0x9e ∧ b = 0x39) → (sensor_detect K bus w).1 = -K.ENODEV) ∧
    ((0x9e <<< 8) ||| 0x39 = V4L2_IDENT_SENSOR) := by
  have hn : -K.ENODEV ≠ 0 := neg_ne_zero.mpr hE
  rw [sensor_detect_ret K bus w a b ha hb]
  refine ⟨?_, ?_, by decide⟩
  · by_cases h1 : a = 0x9e
    · by_cases h2 : b = 0x39
      · simp [h1, h2]
      · simp [h1, h2, hn]
    · simp [h1, hn]
  · intro h
    by_cases h1 : a = 0x9e
    · have h2 : b ≠ 0x39 := fun hb2 => h ⟨h1, hb2⟩
      simp [h1, h2]
    · simp [h1]

/-- C18 witness: identity bytes (0x9e, 0x39) are accepted and (0x9e, 0x38) rejected. -/
theorem C18_detect_iff_identity_witness :
    sample_header.ENODEV ≠ 0 ∧
    (sensor_detect sample_header (ident_bus 0x9e 0x39) (fresh_world 0)).1 = 0 ∧
    (sensor_detect sample_header (ident_bus 0x9e 0x38) (fresh_world 0)).1
      = -sample_header.ENODEV :=
  ⟨by decide,
   ((C18_detect_iff_identity sample_header (ident_bus 0x9e 0x39) (fresh_world 0) 0x9e 0x39
      (by decide) rfl rfl).1).mpr ⟨rfl, rfl⟩,
   (C18_detect_iff_identity sample_header (ident_bus 0x9e 0x38) (fresh_world 0) 0x9e 0x38
      (by decide) rfl rfl).2.1 (by decide)⟩

/-! ## Unsupported commands -/

/-- C19: an unsupported command code is rejected without effect. For every cmd other
than the five handled ones `sensor_ioctl` returns -EINVAL, copies nothing out and leaves
the state, trace included, unchanged; for every value other than STBY_ON, STBY_OFF,
PWR_ON, PWR_OFF `sensor_power` returns -EINVAL with the state unchanged (so no lock,
bus, GPIO, rail or clock action); and for every value other than 0 and 1
`sensor_reset` returns -EINVAL with the state unchanged. -/
theorem C19_unsupported_command_rejected (K : Header) (bus : Bus) (w : World) :
    (∀ (cmd : Nat) (arg : ioctl_arg),
      cmd ≠ K.GET_CURRENT_WIN_CFG → cmd ≠ K.SET_FPS → cmd ≠ K.VIDIOC_VIN_SENSOR_EXP_GAIN →
      cmd ≠ K.VIDIOC_VIN_SENSOR_SET_FPS → cmd ≠ K.VIDIOC_VIN_SENSOR_CFG_REQ →
      sensor_ioctl K bus w cmd arg = some (-K.EINVAL, none, w)) ∧
    (∀ cmd : Int,
      cmd ≠ K.STBY_ON → cmd ≠ K.STBY_OFF → cmd ≠ K.PWR_ON → cmd ≠ K.PWR_OFF →
      sensor_power K bus w cmd = (-K.EINVAL, w)) ∧
    (∀ val : Nat, val ≠ 0 → val ≠ 1 → sensor_reset K w val = (-K.EINVAL, w)) := by
  refine ⟨?_, ?_, ?_⟩
  · intro cmd arg h1 h2 h3 h4 h5
    unfold sensor_ioctl
    rw [if_neg h1, if_neg h2, if_neg h3, if_neg h4, if_neg h5]
  · intro cmd h1 h2 h3 h4
    unfold sensor_power
    rw [if_neg h1, if_neg h2, if_neg h3, if_neg h4]
  · intro val h1 h2
    unfold sensor_reset
    rw [if_neg h1, if_neg h2]

/-- C19 witness: ioctl command 99, power command 7 and reset value 2 on a fresh
instance. -/
theorem C19_unsupported_command_rejected_witness :
    sensor_ioctl sample_header ok_bus (fresh_world 0) 99 ioctl_arg.other
      = some (-sample_header.EINVAL, none, fresh_world 0) ∧
    sensor_power sample_header ok_bus (fresh_world 0) 7
      = (-sample_header.EINVAL, fresh_world 0) ∧
    sensor_reset sample_header (fresh_world 0) 2 = (-sample_header.EINVAL, fresh_world 0) :=
  ⟨(C19_unsupported_command_rejected sample_header ok_bus (fresh_world 0)).1 99
      ioctl_arg.other (by decide) (by decide) (by decide) (by decide) (by decide),
   (C19_unsupported_command_rejected sample_header ok_bus (fresh_world 0)).2.1 7
      (by decide) (by decide) (by decide) (by decide),
   (C19_unsupported_command_rejected sample_header ok_bus (fresh_world 0)).2.2 2
      (by decide) (by decide)⟩

/-! ## Bus errors during mode activation -/

/-- Whatever the bus does, `sensor_reg_init` with a current window returns 0 and latches
the window's width, height and vts after the mode-table write. -/
theorem sensor_reg_init_any_bus (bus : Bus) (w : World) (d : sensor_win_size)
    (hc : w.info.current_wins = some d) :
    sensor_reg_init bus w =
      some (0, { info := { (sensor_write_array bus w d.regs).2.info with
                   width := d.width, height := d.height },
                 sc530ai_sensor_vts := to_s32 d.vts,
                 trace := (sensor_write_array bus w d.regs).2.trace }) := by
  unfold sensor_reg_init
  rw [hc]
  simp [sensor_default_regs, sensor_fmt_raw, sensor_write_array]

/-- C21 (evaluation at the failing input): with a current window d, stream enable
returns 0 on every bus, whatever the burst write of d's register table returned, and
still latches d's width and height. On a bus whose writes fail with code -5, in the
2880x1620 30 fps mode, the table write stops after its first entry (0x0103, 0x01) with
result -5, yet stream enable returns 0. -/
theorem C21_table_write_error_not_returned (bus : Bus) (w : World) (d : sensor_win_size)
    (enable : Int) (hc : w.info.current_wins = some d) (he : enable ≠ 0) :
    (∃ w1 : World, sensor_s_stream bus w enable = some (0, w1) ∧
      w1.trace = (sensor_write_array bus w d.regs).2.trace ∧
      w1.info.width = d.width ∧ w1.info.height = d.height) ∧
    (sensor_write_array failing_bus (mode_world win_2880x1620_30fps)
        win_2880x1620_30fps.regs).1 = -5 ∧
    (sensor_s_stream failing_bus (mode_world win_2880x1620_30fps) 1).map
        (fun r => (r.1, r.2.trace)) = some (0, [Action.write 0x0103 0x01]) := by
  refine ⟨⟨{ info := { (sensor_write_array bus w d.regs).2.info with
                width := d.width, height := d.height },
             sc530ai_sensor_vts := to_s32 d.vts,
             trace := (sensor_write_array bus w d.regs).2.trace }, ?_, rfl, rfl, rfl⟩,
    by decide, by decide⟩
  unfold sensor_s_stream
  rw [hc]
  simp only [if_neg he]
  exact sensor_reg_init_any_bus bus w d hc

/-- C21 witness: stream enable in the 2880x1620 30 fps mode on the failing bus. -/
theorem C21_table_write_error_not_returned_witness :
    (mode_world win_2880x1620_30fps).info.current_wins = some win_2880x1620_30fps ∧
    (1 : Int) ≠ 0 ∧
    ∃ w1 : World,
      sensor_s_stream failing_bus (mode_world win_2880x1620_30fps) 1 = some (0, w1) ∧
      w1.info.width = win_2880x1620_30fps.width :=
  ⟨rfl, by decide,
   (C21_table_write_error_not_returned failing_bus (mode_world win_2880x1620_30fps)
      win_2880x1620_30fps 1 rfl (by decide)).1.elim
     (fun w1 h => ⟨w1, h.1, h.2.2.1⟩)⟩

/-! ## The lock around power transitions -/

/-- The bus actions of `sensor_s_sw_stby` on any bus: the read, then at most one write. -/
theorem sensor_s_sw_stby_actions (K : Header) (bus : Bus) (w : World) (on_off : Int) :
    ∃ acts : List Action,
      (sensor_s_sw_stby K bus w on_off).2.trace = w.trace ++ acts ∧
      (acts = [Action.read 0x0100] ∨
        ∃ v : Nat, acts = [Action.read 0x0100, Action.write 0x0100 v]) := by
  cases h : bus.read_res w.trace 0x0100 with
  | ok v =>
    refine ⟨[Action.read 0x0100,
      Action.write 0x0100 (if on_off = K.STBY_ON then v &&& 0xfe else v ||| 0x01)], ?_,
      Or.inr ⟨_, rfl⟩⟩
    rw [sensor_s_sw_stby_ok K bus w on_off v h]
    simp [sensor_write, World.emit]
  | fail ret hr stored =>
    refine ⟨[Action.read 0x0100], ?_, Or.inl rfl⟩
    rw [sensor_s_sw_stby_fail K bus w on_off ret hr stored h]
    rfl

/-- C22: for each of the four valid commands and on every bus (so also when the read or
the write of 0x0100 fails), the actions issued by `sensor_power` are one lock acquire,
then a non-empty run of actions containing no lock acquire and no lock release, then
one lock release; in the two standby cases that run contains the read of 0x0100 and
the 10-12 ms settle delay. -/
theorem C22_lock_brackets_power (K : Header) (bus : Bus) (w : World) (cmd : Int)
    (hcmd : cmd = K.STBY_ON ∨ cmd = K.STBY_OFF ∨ cmd = K.PWR_ON ∨ cmd = K.PWR_OFF) :
    ∃ mid : List Action,
      (sensor_power K bus w cmd).2.trace =
        w.trace ++ [Action.cci_lock] ++ mid ++ [Action.cci_unlock] ∧
      Action.cci_lock ∉ mid ∧ Action.cci_unlock ∉ mid ∧ mid ≠ [] ∧
      (cmd = K.STBY_ON ∨ cmd = K.STBY_OFF →
        Action.read 0x0100 ∈ mid ∧ Action.usleep_range 10000 12000 ∈ mid) := by
  obtain ⟨h12, h13, h14, h23, h24, h34⟩ := power_labels_ne K
  rcases hcmd with rfl | rfl | rfl | rfl
  · obtain ⟨acts, ht, hs⟩ := sensor_s_sw_stby_actions K bus (w.emit Action.cci_lock) K.STBY_ON
    refine ⟨acts ++ [Action.usleep_range 10000 12000], ?_, ?_, ?_, ?_, ?_⟩
    · rw [sensor_power_stby_on_eq]
      simp only [World.emit] at ht ⊢
      rw [ht]
      simp only [List.append_assoc]
    · rcases hs with rfl | ⟨v, rfl⟩ <;> simp
    · rcases hs with rfl | ⟨v, rfl⟩ <;> simp
    · simp
    · intro _
      rcases hs with rfl | ⟨v, rfl⟩ <;> simp
  · obtain ⟨acts, ht, hs⟩ := sensor_s_sw_stby_actions K bus
      ((w.emit Action.cci_lock).emit (Action.usleep_range 10000 12000)) K.STBY_OFF
    refine ⟨[Action.usleep_range 10000 12000] ++ acts, ?_, ?_, ?_, ?_, ?_⟩
    · rw [sensor_power_stby_off_eq]
      simp only [World.emit] at ht ⊢
      rw [ht]
      simp only [List.append_assoc]
    · rcases hs with rfl | ⟨v, rfl⟩ <;> simp
    · rcases hs with rfl | ⟨v, rfl⟩ <;> simp
    · simp
    · intro _
      rcases hs with rfl | ⟨v, rfl⟩ <;> simp
  · refine ⟨[Action.vin_gpio_set_status gpio_pin.PWDN 1,
      Action.vin_gpio_set_status gpio_pin.RESET 1,
      Action.vin_gpio_set_status gpio_pin.POWER_EN 1,
      Action.vin_gpio_write gpio_pin.RESET gpio_level.CSI_GPIO_LOW,
      Action.vin_gpio_write gpio_pin.PWDN gpio_level.CSI_GPIO_LOW,
      Action.vin_gpio_write gpio_pin.POWER_EN gpio_level.CSI_GPIO_HIGH,
      Action.vin_set_pmu_channel pmu_channel.IOVDD on_off.ON,
      Action.vin_set_pmu_channel pmu_channel.DVDD on_off.ON,
      Action.vin_set_pmu_channel pmu_channel.AVDD on_off.ON,
      Action.usleep_range 100 120,
      Action.vin_gpio_write gpio_pin.RESET gpio_level.CSI_GPIO_HIGH,
      Action.vin_gpio_write gpio_pin.PWDN gpio_level.CSI_GPIO_HIGH,
      Action.usleep_range 5000 7000,
      Action.vin_set_mclk on_off.ON,
      Action.usleep_range 5000 7000,
      Action.vin_set_mclk_freq 27000000,
      Action.usleep_range 5000 7000], ?_, ?_, ?_, ?_, ?_⟩
    · rw [sensor_power_on_eq]
      simp only [List.append_assoc, List.singleton_append, List.cons_append, List.nil_append]
    · simp
    · simp
    · simp
    · intro h
      rcases h with h | h
      · exact absurd h (Ne.symm h13)
      · exact absurd h (Ne.symm h23)
  · refine ⟨[Action.vin_gpio_set_status gpio_pin.PWDN 1,
      Action.vin_gpio_set_status gpio_pin.RESET 1,
      Action.vin_gpio_write gpio_pin.RESET gpio_level.CSI_GPIO_LOW,
      Action.vin_gpio_write gpio_pin.PWDN gpio_level.CSI_GPIO_LOW,
      Action.vin_set_mclk on_off.OFF,
      Action.vin_set_pmu_channel pmu_channel.AFVDD on_off.OFF,
      Action.vin_set_pmu_channel pmu_channel.AVDD on_off.OFF,
      Action.vin_set_pmu_channel pmu_channel.IOVDD on_off.OFF,
      Action.vin_set_pmu_channel pmu_channel.DVDD on_off.OFF,
      Action.vin_gpio_write gpio_pin.POWER_EN gpio_level.CSI_GPIO_LOW,
      Action.vin_gpio_set_status gpio_pin.RESET 0,
      Action.vin_gpio_set_status gpio_pin.PWDN 0,
      Action.vin_gpio_set_status gpio_pin.POWER_EN 0], ?_, ?_, ?_, ?_, ?_⟩
    · rw [sensor_power_off_eq]
      simp only [List.append_assoc, List.singleton_append, List.cons_append, List.nil_append]
    · simp
    · simp
    · simp
    · intro h
      rcases h with h | h
      · exact absurd h (Ne.symm h14)
      · exact absurd h (Ne.symm h24)

/-- C22 witness: entering standby on a bus whose read of 0x0100 fails still ends with
the lock release. -/
theorem C22_lock_brackets_power_witness :
    ∃ mid : List Action,
      (sensor_power sample_header failing_bus (fresh_world 0) sample_header.STBY_ON).2.trace =
        (fresh_world 0).trace ++ [Action.cci_lock] ++ mid ++ [Action.cci_unlock] ∧
      Action.cci_lock ∉ mid ∧ Action.cci_unlock ∉ mid :=
  (C22_lock_brackets_power sample_header failing_bus (fresh_world 0) sample_header.STBY_ON
      (Or.inl rfl)).elim
    (fun mid h => ⟨mid, h.1, h.2.1, h.2.2.1⟩)

/-! ## Frame length against the minimum exposure -/

/-- Timing constants shared by the six entries of the mode table. -/
theorem sensor_win_sizes_timing (d : sensor_win_size) (hd : d ∈ sensor_win_sizes) :
    d.pclk = d.hts * d.vts * d.fps_fixed ∧ d.pclk / d.fps_fixed / d.hts = d.vts ∧
    0 < d.fps_fixed ∧ 0 < d.hts ∧ d.pclk < 2 ^ 31 ∧ d.intg_min / 16 = 1 ∧
    (d.pclk / d.hts = 49500 ∨ d.pclk / d.hts = 99000) := by
  simp only [sensor_win_sizes, List.mem_cons, List.mem_singleton, List.not_mem_nil,
    or_false] at hd
  rcases hd with rfl | rfl | rfl | rfl | rfl | rfl <;> decide

theorem one_le_div_div_iff (pclk fps hts : Nat) (hf : 0 < fps) (hh : 0 < hts) :
    1 ≤ pclk / fps / hts ↔ fps ≤ pclk / hts := by
  rw [Nat.le_div_iff_mul_le hh, Nat.le_div_iff_mul_le hf, Nat.le_div_iff_mul_le hh,
    Nat.one_mul, Nat.mul_comm]

/-- C23 (as the code behaves): for every mode d of the table and every fps >= 1,
`sensor_s_fps` returns 0 and stores vts = pclk / fps / hts with no lower bound applied;
this vts is at least the minimum integration time in lines (intg_min / 16 = 1) exactly
when fps <= pclk / hts, which is 49500 or 99000 depending on the mode; for a larger
fps the stored vts is 0. -/
theorem C23_fps_vts_lower_bound (w : World) (d : sensor_win_size) (fps : Nat)
    (hd : d ∈ sensor_win_sizes) (hc : w.info.current_wins = some d) (hf : 1 ≤ fps) :
    d.intg_min / 16 = 1 ∧
    sensor_s_fps w fps =
      some (0, { w with sc530ai_sensor_vts := ((d.pclk / fps / d.hts : Nat) : Int) }) ∧
    (d.intg_min / 16 ≤ d.pclk / fps / d.hts ↔ fps ≤ d.pclk / d.hts) ∧
    (d.pclk / d.hts < fps → d.pclk / fps / d.hts = 0) ∧
    (d.pclk / d.hts = 49500 ∨ d.pclk / d.hts = 99000) := by
  obtain ⟨_, _, _, hh, hp, hi, hq⟩ := sensor_win_sizes_timing d hd
  have hiff := one_le_div_div_iff d.pclk fps d.hts hf hh
  refine ⟨hi, sensor_s_fps_eq w d fps hc hf hh hp, ?_, ?_, hq⟩
  · rw [hi]; exact hiff
  · intro hlt
    have hn : ¬ (1 ≤ d.pclk / fps / d.hts) :=
      fun h1 => absurd (hiff.mp h1) (Nat.not_le.mpr hlt)
    exact Nat.lt_one_iff.mp (Nat.not_le.mp hn)

/-- C23 witness: 25 fps requested in the 2880x1620 30 fps mode gives vts 1980 >= 1. -/
theorem C23_fps_vts_lower_bound_witness :
    win_2880x1620_30fps ∈ sensor_win_sizes ∧
    (mode_world win_2880x1620_30fps).info.current_wins = some win_2880x1620_30fps ∧
    1 ≤ 25 ∧ 25 ≤ win_2880x1620_30fps.pclk / win_2880x1620_30fps.hts ∧
    win_2880x1620_30fps.intg_min / 16
      ≤ win_2880x1620_30fps.pclk / 25 / win_2880x1620_30fps.hts :=
  ⟨by decide, rfl, by decide, by decide,
   ((C23_fps_vts_lower_bound (mode_world win_2880x1620_30fps) win_2880x1620_30fps 25
      (by decide) rfl (by decide)).2.2.1).mpr (by decide)⟩

/-- C23 counterexample: in the 2880x1620 30 fps mode (minimum integration time
intg_min / 16 = 1 line) a frame-rate override with fps = 49501 stores vts = 0. -/
theorem C23_vts_zero_at_49501 :
    win_2880x1620_30fps ∈ sensor_win_sizes ∧
    win_2880x1620_30fps.intg_min / 16 = 1 ∧
    (sensor_s_fps (mode_world win_2880x1620_30fps) 49501).map
      (fun r => (r.1, r.2.sc530ai_sensor_vts)) = some (0, 0) := by
  decide

/-- C27: for each of the six entries d of `sensor_win_sizes`,
pclk = hts * vts * fps_fixed exactly, and with d as the current window a frame-rate
override with fps = fps_fixed returns 0 and stores exactly d's compiled-in vts (nothing
else changes). -/
theorem C27_timing_consistent (w : World) (d : sensor_win_size)
    (hd : d ∈ sensor_win_sizes) (hc : w.info.current_wins = some d) :
    d.pclk = d.hts * d.vts * d.fps_fixed ∧
    d.pclk / d.fps_fixed / d.hts = d.vts ∧
    sensor_s_fps w d.fps_fixed =
      some (0, { w with sc530ai_sensor_vts := (d.vts : Int) }) := by
  obtain ⟨h1, h2, hf, hh, hp, _, _⟩ := sensor_win_sizes_timing d hd
  refine ⟨h1, h2, ?_⟩
  rw [sensor_s_fps_eq w d d.fps_fixed hc hf hh hp, h2]

/-- C27 witness: the 2880x1620 30 fps entry, 158400000 = 3200 * 1650 * 30. -/
theorem C27_timing_consistent_witness :
    win_2880x1620_30fps ∈ sensor_win_sizes ∧
    (mode_world win_2880x1620_30fps).info.current_wins = some win_2880x1620_30fps ∧
    win_2880x1620_30fps.pclk
      = win_2880x1620_30fps.hts * win_2880x1620_30fps.vts * win_2880x1620_30fps.fps_fixed ∧
    sensor_s_fps (mode_world win_2880x1620_30fps) win_2880x1620_30fps.fps_fixed =
      some (0, { mode_world win_2880x1620_30fps with
        sc530ai_sensor_vts := (win_2880x1620_30fps.vts : Int) }) :=
  ⟨by decide, rfl,
   (C27_timing_consistent (mode_world win_2880x1620_30fps) win_2880x1620_30fps
      (by decide) rfl).1,
   (C27_timing_consistent (mode_world win_2880x1620_30fps) win_2880x1620_30fps
      (by decide) rfl).2.2⟩

/-! ## Power-off: levels, clock, rails, GPIO release -/

/-- C24: in the actions of `sensor_power(PWR_OFF)`, after the lock and the set-up of
the PWDN and RESET lines, RESET and PWDN are driven low (positions 3 and 4) before every
clock, rail, POWER_EN and release action; the external clock is disabled (position 5)
before any rail is disabled (positions 6-9); and the release of RESET, PWDN and
POWER_EN (status 0, positions 11-13) comes after every rail has been disabled. -/
theorem C24_power_off_order (K : Header) (bus : Bus) (w : World) :
    ∃ acts : List Action,
      (sensor_power K bus w K.PWR_OFF).2.trace = w.trace ++ acts ∧
      acts.take 5 =
        [Action.cci_lock,
         Action.vin_gpio_set_status gpio_pin.PWDN 1,
         Action.vin_gpio_set_status gpio_pin.RESET 1,
         Action.vin_gpio_write gpio_pin.RESET gpio_level.CSI_GPIO_LOW,
         Action.vin_gpio_write gpio_pin.PWDN gpio_level.CSI_GPIO_LOW] ∧
      acts.filter is_power_step =
        [Action.vin_gpio_write gpio_pin.RESET gpio_level.CSI_GPIO_LOW,
         Action.vin_gpio_write gpio_pin.PWDN gpio_level.CSI_GPIO_LOW,
         Action.vin_set_mclk on_off.OFF,
         Action.vin_set_pmu_channel pmu_channel.AFVDD on_off.OFF,
         Action.vin_set_pmu_channel pmu_channel.AVDD on_off.OFF,
         Action.vin_set_pmu_channel pmu_channel.IOVDD on_off.OFF,
         Action.vin_set_pmu_channel pmu_channel.DVDD on_off.OFF] ∧
      acts.drop 10 =
        [Action.vin_gpio_write gpio_pin.POWER_EN gpio_level.CSI_GPIO_LOW,
         Action.vin_gpio_set_status gpio_pin.RESET 0,
         Action.vin_gpio_set_status gpio_pin.PWDN 0,
         Action.vin_gpio_set_status gpio_pin.POWER_EN 0,
         Action.cci_unlock] ∧
      positions (Action.vin_set_mclk on_off.OFF) acts = [5] ∧
      (∀ rail : pmu_channel,
        all_before (Action.vin_set_mclk on_off.OFF)
          (Action.vin_set_pmu_channel rail on_off.OFF) acts = true) ∧
      (∀ (rail : pmu_channel) (pin : gpio_pin),
        all_before (Action.vin_set_pmu_channel rail on_off.OFF)
          (Action.vin_gpio_set_status pin 0) acts = true) ∧
      (∀ pin : gpio_pin, (positions (Action.vin_gpio_set_status pin 0) acts).length = 1) := by
  refine ⟨_, congrArg (fun r => r.2.trace) (sensor_power_off_eq K bus w),
    ?_, ?_, ?_, ?_, ?_, ?_, ?_⟩
  · decide
  · decide
  · decide
  · decide
  · intro rail; cases rail <;> decide
  · intro rail pin; cases rail <;> cases pin <;> decide
  · intro pin; cases pin <;> decide

/-! ## Range of the digital-low gain byte -/

/-- The digital-low value of every scaled gain up to the scaled `gain_max`. -/
theorem gaindiglow_le_255 (K : Header) (g : Nat) (hg : g ≤ 41728) :
    (sensor_s_gain_code K g).gaindiglow ≤ 255 := by
  rcases Nat.lt_or_ge g 256 with h0 | h0
  · rw [sensor_s_gain_code_b0 K g h0]; show g ≤ 255; omega
  rcases Nat.lt_or_ge g 326 with h1 | h1
  · rw [sensor_s_gain_code_b1 K g h0 h1]; show g * 256 / 512 ≤ 255; omega
  rcases Nat.lt_or_ge g 653 with h2 | h2
  · rw [sensor_s_gain_code_b2 K g h1 h2]; show g * 256 / 653 ≤ 255; omega
  rcases Nat.lt_or_ge g 1306 with h3 | h3
  · rw [sensor_s_gain_code_b3 K g h2 h3]; show g * 256 / 1306 ≤ 255; omega
  rcases Nat.lt_or_ge g 2611 with h4 | h4
  · rw [sensor_s_gain_code_b4 K g h3 h4]; show g * 256 / 2661 ≤ 255; omega
  rcases Nat.lt_or_ge g 5222 with h5 | h5
  · rw [sensor_s_gain_code_b5 K g h4 h5]; show g * 256 / 5222 ≤ 255; omega
  rcases Nat.lt_or_ge g 10445 with h6 | h6
  · rw [sensor_s_gain_code_b6 K g h5 h6]; show g * 256 / 10445 ≤ 255; omega
  rcases Nat.lt_or_ge g 20890 with h7 | h7
  · rw [sensor_s_gain_code_b7 K g h6 h7]; show g * 256 / 20890 ≤ 255; omega
  · rw [sensor_s_gain_code_b8 K g h7 hg]; show g * 256 / 20890 / 2 ≤ 255; omega

/-- C25: for every gain request r in [0, 5216] (scaled gain r << 3 up to 41728) the
digital-low value computed by `sensor_s_gain` is at most 255, so the byte cast applied
when it is written to 0x3e07 / 0x3e11 leaves it unchanged; the same holds for every
scaled gain up to 41728. -/
theorem C25_digital_low_fits_byte (K : Header) (r : Nat) (hr : r ≤ 5216) :
    wrap_int ((r : Int) * 8) = ((r * 8 : Nat) : Int) ∧
    (sensor_s_gain_code K (wrap_int ((r : Int) * 8))).gaindiglow ≤ 255 ∧
    to_uchar (sensor_s_gain_code K (wrap_int ((r : Int) * 8))).gaindiglow
      = (sensor_s_gain_code K (wrap_int ((r : Int) * 8))).gaindiglow ∧
    (∀ g : Nat, g ≤ 41728 → (sensor_s_gain_code K g).gaindiglow ≤ 255) := by
  have hs := scaled_gain_natCast r (by omega)
  have hb : (sensor_s_gain_code K (wrap_int ((r : Int) * 8))).gaindiglow ≤ 255 := by
    rw [hs]; exact gaindiglow_le_255 K (r * 8) (by omega)
  exact ⟨hs, hb, Nat.mod_eq_of_lt (Nat.lt_succ_of_le hb), gaindiglow_le_255 K⟩

/-- C25 witness: the largest request 5216 (scaled gain 41728) has digital-low 255. -/
theorem C25_digital_low_fits_byte_witness :
    5216 ≤ 5216 ∧
    (sensor_s_gain_code sample_header (wrap_int (((5216 : Nat) : Int) * 8))).gaindiglow
      ≤ 255 :=
  ⟨by decide, (C25_digital_low_fits_byte sample_header 5216 (by decide)).2.1⟩

/-! ## Get after set -/

theorem to_s32_to_uint (x : Int) (h0 : -2147483648 ≤ x) (h1 : x < 2147483648) :
    to_s32 (to_uint x) = x := by
  unfold to_s32 to_uint wrap_int; omega

theorem to_s32_natCast (n : Nat) (h : n < 2147483648) : to_s32 n = (n : Int) := by
  unfold to_s32; exact wrap_int_of_bounds _ (by omega) (by omega)

theorem to_s32_of_high (n : Nat) (h1 : 2147483648 ≤ n) (h2 : n < 4294967296) :
    to_s32 n = (n : Int) - 4294967296 := by
  unfold to_s32 wrap_int; omega

/-- C26 (as the code behaves): `sensor_g_exp` and `sensor_g_gain` return status 0 and
the stored 32-bit value read as a signed number, which is neither always the request
nor always the value encoded last. In single-exposure mode `sensor_g_exp` after
`sensor_s_exp(e)` returns max(e, 16) for e below 2^31 and max(e, 16) - 2^32 for
2^31 <= e < 2^32; in HDR mode it returns max(e, 512) / 32 (the short exposure) for every
32-bit e. After `sensor_s_exp_gain(e, g)` with `int` inputs, in either mode,
`sensor_g_exp` returns min(e, 0xFFFFF) and `sensor_g_gain` returns max(g, 16), also
where the registers encode something else: in single-exposure mode a request
0 <= e < 16 writes the exposure bytes of 16 (0x20, 0x00, 0x00) first and is read back
as e. -/
theorem C26_get_after_set (K : Header) (bus : Bus) (w : World) (e : Nat) (ev g : Int) :
    (w.info.isp_wdr_mode ≠ K.ISP_DOL_WDR_MODE →
      sensor_g_exp (sensor_s_exp K bus w e).2 = (0, to_s32 (max e 16)) ∧
      (e < 2147483648 →
        sensor_g_exp (sensor_s_exp K bus w e).2 = (0, ((max e 16 : Nat) : Int))) ∧
      (2147483648 ≤ e → e < 4294967296 →
        sensor_g_exp (sensor_s_exp K bus w e).2 = (0, (e : Int) - 4294967296))) ∧
    (w.info.isp_wdr_mode = K.ISP_DOL_WDR_MODE →
      sensor_g_exp (sensor_s_exp K bus w e).2 = (0, to_s32 (max e 512 / 32)) ∧
      (e < 4294967296 →
        sensor_g_exp (sensor_s_exp K bus w e).2 = (0, ((max e 512 / 32 : Nat) : Int)))) ∧
    sensor_g_exp (sensor_s_exp_gain K bus w ev g).2
      = (0, to_s32 (to_uint (min ev 0xFFFFF))) ∧
    sensor_g_gain (sensor_s_exp_gain K bus w ev g).2 = (0, to_s32 (to_uint (max g 16))) ∧
    (-2147483648 ≤ ev → ev < 2147483648 →
      sensor_g_exp (sensor_s_exp_gain K bus w ev g).2 = (0, min ev 0xFFFFF)) ∧
    (-2147483648 ≤ g → g < 2147483648 →
      sensor_g_gain (sensor_s_exp_gain K bus w ev g).2 = (0, max g 16)) ∧
    (w.info.isp_wdr_mode ≠ K.ISP_DOL_WDR_MODE → 0 ≤ ev → ev < 16 →
      (∃ rest : List Action, (sensor_s_exp_gain K bus w ev g).2.trace =
        w.trace ++ [Action.write 0x3e02 0x20, Action.write 0x3e01 0x00,
          Action.write 0x3e00 0x00] ++ rest) ∧
      sensor_g_exp (sensor_s_exp_gain K bus w ev g).2 = (0, ev)) := by
  have c16 : (if e < 16 then 16 else e) = max e 16 := by split_ifs <;> omega
  have c512 : (if e < 512 then 512 else e) = max e 512 := by split_ifs <;> omega
  have cg : (if g < 1 * 16 then (16 : Int) else g) = max g 16 := by split_ifs <;> omega
  have ce : (if ev > 0xfffff then (0xfffff : Int) else ev) = min ev 0xFFFFF := by
    split_ifs <;> omega
  have gexp : sensor_g_exp (sensor_s_exp_gain K bus w ev g).2
      = (0, to_s32 (to_uint (min ev 0xFFFFF))) := by
    unfold sensor_g_exp
    simp only [sensor_s_exp_gain, ce]
  have ggain : sensor_g_gain (sensor_s_exp_gain K bus w ev g).2
      = (0, to_s32 (to_uint (max g 16))) := by
    unfold sensor_g_gain
    simp only [sensor_s_exp_gain, cg]
  refine ⟨?_, ?_, gexp, ggain, ?_, ?_, ?_⟩
  · intro h
    have hs : sensor_g_exp (sensor_s_exp K bus w e).2 = (0, to_s32 (max e 16)) := by
      rw [sensor_s_exp_normal K bus w e h, c16]
      rfl
    refine ⟨hs, ?_, ?_⟩
    · intro he
      rw [hs, to_s32_natCast (max e 16) (by omega)]
    · intro h1 h2
      have hm : max e 16 = e := by omega
      rw [hs, hm, to_s32_of_high e h1 h2]
  · intro h
    have hs : sensor_g_exp (sensor_s_exp K bus w e).2 = (0, to_s32 (max e 512 / 32)) := by
      rw [sensor_s_exp_hdr K bus w e h, c512]
      rfl
    refine ⟨hs, ?_⟩
    intro he
    rw [hs, to_s32_natCast (max e 512 / 32) (by omega)]
  · intro h0 h1
    rw [gexp, to_s32_to_uint (min ev 0xFFFFF) (by omega) (by omega)]
  · intro h0 h1
    rw [ggain, to_s32_to_uint (max g 16) (by omega) (by omega)]
  · intro h h0 h1
    have hm : min ev 0xFFFFF = ev := by omega
    have hu : to_uint ev < 16 := by unfold to_uint; omega
    refine ⟨?_, ?_⟩
    · have hmode := sensor_s_exp_mode K bus w (to_uint ev)
      have ht : (sensor_s_exp_gain K bus w ev g).2.trace
          = (sensor_s_gain K bus (sensor_s_exp K bus w (to_uint ev)).2 (max g 16)).2.trace := by
        simp only [sensor_s_exp_gain, cg, ce, hm]
      rw [ht, sensor_s_gain_trace_normal K bus _ _ (by rw [hmode]; exact h),
        sensor_s_exp_normal K bus w (to_uint ev) h, if_pos hu]
      exact ⟨_, rfl⟩
    · rw [gexp, to_s32_to_uint (min ev 0xFFFFF) (by omega) (by omega), hm]

/-- C26 witness: exposure 100 read back as 512 / 32 = 16 in HDR mode and as 100 in
single-exposure mode, exposure 4294967295 read back as -1, and (2000000, 5) read back
as (0xFFFFF, 16) after the combined update. -/
theorem C26_get_after_set_witness :
    (fresh_world 1).info.isp_wdr_mode = sample_header.ISP_DOL_WDR_MODE ∧
    (fresh_world 0).info.isp_wdr_mode ≠ sample_header.ISP_DOL_WDR_MODE ∧
    sensor_g_exp (sensor_s_exp sample_header ok_bus (fresh_world 1) 100).2
      = (0, ((max 100 512 / 32 : Nat) : Int)) ∧
    sensor_g_exp (sensor_s_exp sample_header ok_bus (fresh_world 0) 100).2
      = (0, ((max 100 16 : Nat) : Int)) ∧
    sensor_g_exp (sensor_s_exp sample_header ok_bus (fresh_world 0) 4294967295).2
      = (0, ((4294967295 : Nat) : Int) - 4294967296) ∧
    sensor_g_exp (sensor_s_exp_gain sample_header ok_bus (fresh_world 1) 2000000 5).2
      = (0, min 2000000 0xFFFFF) ∧
    sensor_g_gain (sensor_s_exp_gain sample_header ok_bus (fresh_world 1) 2000000 5).2
      = (0, max 5 16) ∧
    sensor_g_exp (sensor_s_exp_gain sample_header ok_bus (fresh_world 0) 3 16).2 = (0, 3) :=
  ⟨by decide, by decide,
   ((C26_get_after_set sample_header ok_bus (fresh_world 1) 100 2000000 5).2.1
      (by decide)).2 (by decide),
   ((C26_get_after_set sample_header ok_bus (fresh_world 0) 100 2000000 5).1
      (by decide)).2.1 (by decide),
   ((C26_get_after_set sample_header ok_bus (fresh_world 0) 4294967295 2000000 5).1
      (by decide)).2.2 (by decide) (by decide),
   (C26_get_after_set sample_header ok_bus (fresh_world 1) 100 2000000 5).2.2.2.2.1
      (by decide) (by decide),
   (C26_get_after_set sample_header ok_bus (fresh_world 1) 100 2000000 5).2.2.2.2.2.1
      (by decide) (by decide),
   ((C26_get_after_set sample_header ok_bus (fresh_world 0) 100 3 16).2.2.2.2.2.2
      (by decide) (by decide) (by decide)).2⟩

/-- C26 counterexample: on a fresh single-exposure instance, exposure 4294967295 is read
back as -1, not as max(e, 16); and after the combined update with exposure 3 the
exposure registers were last written with the encoding of 16 (0x20, 0x00, 0x00) while
`sensor_g_exp` returns 3, so the value read back is not the value encoded last. -/
theorem C26_readback_not_encoded_value :
    sensor_g_exp (sensor_s_exp sample_header ok_bus (fresh_world 0) 4294967295).2
      = (0, -1) ∧
    ¬ (sensor_g_exp (sensor_s_exp sample_header ok_bus (fresh_world 0) 4294967295).2
        = (0, ((max 4294967295 16 : Nat) : Int))) ∧
    (sensor_s_exp_gain sample_header ok_bus (fresh_world 0) 3 16).2.trace =
      [Action.write 0x3e02 0x20, Action.write 0x3e01 0x00, Action.write 0x3e00 0x00,
       Action.write 0x3e09 0x00, Action.write 0x3e07 0x80, Action.write 0x3e06 0x00] ∧
    (sensor_s_exp sample_header ok_bus (fresh_world 0) 16).2.trace =
      [Action.write 0x3e02 0x20, Action.write 0x3e01 0x00, Action.write 0x3e00 0x00] ∧
    sensor_g_exp (sensor_s_exp_gain sample_header ok_bus (fresh_world 0) 3 16).2 = (0, 3) ∧
    ¬ (sensor_g_exp (sensor_s_exp_gain sample_header ok_bus (fresh_world 0) 3 16).2
        = (0, 16)) := by
  decide

end Sc530ai
